import Mathlib

/-
Verification of the NeonSudoku puzzle engine (src/utils/sudokuLogic.ts).

The engine is embedded shallowly:
* a grid is a list of rows, each row a list of optional cell values
  (null in TypeScript becomes none);
* in-place mutation becomes explicit state passing: solveSudoku returns the
  final state of the board next to its boolean result, countSolutions returns
  the final count next to the final state of the board it was handed;
* the two unbounded loops of the generator (rejection-sampling seeding and the
  removal loop) and the recursion of the solver receive explicit fuel; the
  generator returns none when fuel runs out;
* Math.random is modelled by a stream of naturals, reduced mod 9 at each draw.
-/

namespace NeonSudoku

/-- A board: rows of cells, a cell being empty (none) or a value. -/
abbrev Grid : Type := List (List (Option Nat))

/-- Read board[r][c]; out-of-range reads give none. -/
def getCell (g : Grid) (r c : Nat) : Option Nat :=
  ((g[r]?.getD [])[c]?.getD none)

/-- Write board[r][c] := v; out-of-range writes are dropped. -/
def setCell (g : Grid) (r c : Nat) (v : Option Nat) : Grid :=
  g.set r ((g[r]?.getD []).set c v)

/-- Translation of isValid: scan row, column, and the 3x3 box whose origin is
(row - row % 3, col - col % 3) for the candidate value. -/
def isValid (board : Grid) (row col : Nat) (num : Nat) : Bool :=
  ((List.range 9).all fun x => !(getCell board row x == some num)) &&
  ((List.range 9).all fun x => !(getCell board x col == some num)) &&
  (let startRow := row - row % 3
   let startCol := col - col % 3
   (List.range 3).all fun i =>
     (List.range 3).all fun j =>
       !(getCell board (i + startRow) (j + startCol) == some num))

/-- First empty cell in row-major order, as in the double loop opening
solveSudoku and the inner solve of countSolutions. -/
def findEmpty (g : Grid) : Option (Nat × Nat) :=
  (List.range 9).findSome? fun r =>
    (List.range 9).findSome? fun c =>
      if getCell g r c = none then some (r, c) else none

/-- The candidate loop of solveSudoku over a list of values to try at the
first empty cell (r, c): place the value, run the solver continuation, and on
failure revert the cell to empty before moving to the next candidate. -/
def solveNums (slv : Grid → Bool × Grid) (g : Grid) (r c : Nat) :
    List Nat → Bool × Grid
  | [] => (false, g)
  | n :: ns =>
    if isValid g r c n then
      match slv (setCell g r c (some n)) with
      | (true, g1) => (true, g1)
      | (false, g1) => solveNums slv (setCell g1 r c none) r c ns
    else solveNums slv g r c ns

/-- Fuelled solveSudoku.  A call at fuel 0 facing an empty cell answers
(false, g); this branch is unreachable from solveSudoku because the number of
empty cells, which bounds the recursion depth, is at most 81. -/
def solveFuel : Nat → Grid → Bool × Grid
  | 0, g =>
    match findEmpty g with
    | none => (true, g)
    | some _ => (false, g)
  | fuel + 1, g =>
    match findEmpty g with
    | none => (true, g)
    | some rc => solveNums (fun g1 => solveFuel fuel g1) g rc.1 rc.2 (List.range' 1 9)

/-- Translation of solveSudoku: the boolean result and the final state of the
board mutated in place. -/
def solveSudoku (g : Grid) : Bool × Grid := solveFuel 81 g

/-- The candidate loop of the inner solve of countSolutions: place the value,
run the counting continuation, revert the cell, and abandon the search as soon
as the count exceeds 1. -/
def countNums (cnt : Grid → Nat → Nat × Grid) (g : Grid) (r c : Nat) :
    List Nat → Nat → Nat × Grid
  | [], count => (count, g)
  | n :: ns, count =>
    if isValid g r c n then
      match cnt (setCell g r c (some n)) count with
      | (count1, g1) =>
        let g2 := setCell g1 r c none
        if 1 < count1 then (count1, g2)
        else countNums cnt g2 r c ns count1
    else countNums cnt g r c ns count

/-- Fuelled inner solve of countSolutions, threading the mutable count. -/
def countFuel : Nat → Grid → Nat → Nat × Grid
  | 0, g, count =>
    match findEmpty g with
    | none => (count + 1, g)
    | some _ => (count, g)
  | fuel + 1, g, count =>
    match findEmpty g with
    | none => (count + 1, g)
    | some rc => countNums (fun g1 k => countFuel fuel g1 k) g rc.1 rc.2 (List.range' 1 9) count

/-- Translation of countSolutions: the count it returns and the final state of
the board it was handed. -/
def countSolutions (g : Grid) : Nat × Grid := countFuel 81 g 0

/-- Proof-side enumerator mirroring the search of countSolutions without the
early exit: the list of every completed board the backtracking reaches. -/
def solsNums (sols : Grid → List Grid) (g : Grid) (r c : Nat) :
    List Nat → List Grid
  | [] => []
  | n :: ns =>
    (if isValid g r c n then sols (setCell g r c (some n)) else []) ++
      solsNums sols g r c ns

/-- Fuelled enumerator of all completions reachable by the backtracking
search. -/
def solsFuel : Nat → Grid → List Grid
  | 0, g =>
    match findEmpty g with
    | none => [g]
    | some _ => []
  | fuel + 1, g =>
    match findEmpty g with
    | none => [g]
    | some rc => solsNums (fun g1 => solsFuel fuel g1) g rc.1 rc.2 (List.range' 1 9)

/-- The four difficulty levels. -/
inductive Difficulty : Type
  | easy
  | medium
  | hard
  | expert
deriving DecidableEq

/-- The switch in generateSudoku mapping difficulty to cellsToRemove. -/
def cellsToRemoveOf : Difficulty → Nat
  | .easy => 35
  | .medium => 45
  | .hard => 55
  | .expert => 60

/-- The do-while of the diagonal seeding: draw random values at rng index k
until one passes isValid, then place it.  Fuel bounds the rejection loop. -/
def drawCell (rng : Nat → Nat) (g : Grid) (r c : Nat) :
    Nat → Nat → Option (Grid × Nat)
  | _, 0 => none
  | k, fuel + 1 =>
    let num := rng k % 9 + 1
    if isValid g r c num then some (setCell g r c (some num), k + 1)
    else drawCell rng g r c (k + 1) fuel

/-- Cell order of the triple seeding loop: boxes i = 0, 3, 6, inside each box
rows j then columns k. -/
def seedPositions : List (Nat × Nat) :=
  [0, 3, 6].flatMap fun i =>
    (List.range 3).flatMap fun j =>
      (List.range 3).map fun k => (i + j, i + k)

/-- Fill the listed cells one after the other by rejection sampling. -/
def seedBoxes (rng : Nat → Nat) : List (Nat × Nat) → Grid → Nat → Nat →
    Option (Grid × Nat)
  | [], g, k, _ => some (g, k)
  | p :: ps, g, k, fuel =>
    (drawCell rng g p.1 p.2 k fuel).bind fun gk => seedBoxes rng ps gk.1 gk.2 fuel

/-- The removal while-loop: pick a random cell; if it is filled, clear it,
keep the clearing when the cleared puzzle still has exactly one solution
(checked on a deep copy, which under value semantics is the grid itself) and
advance attempts, otherwise restore the cell; picks on empty cells only retry.
Fuel bounds the number of iterations. -/
def removeLoop (rng : Nat → Nat) : Nat → Nat → Nat → Grid → Nat →
    Option (Grid × Nat)
  | k, attempts, target, p, fuel =>
    if target ≤ attempts then some (p, k)
    else
      match fuel with
      | 0 => none
      | fuel + 1 =>
        let r := rng k % 9
        let c := rng (k + 1) % 9
        match getCell p r c with
        | some temp =>
          let p1 := setCell p r c none
          if (countSolutions p1).1 ≠ 1 then
            removeLoop rng (k + 2) attempts target (setCell p1 r c (some temp)) fuel
          else
            removeLoop rng (k + 2) (attempts + 1) target p1 fuel
        | none => removeLoop rng (k + 2) attempts target p fuel

/-- The all-empty 9x9 board generateSudoku starts from. -/
def emptyGrid : Grid := List.replicate 9 (List.replicate 9 none)

/-- Translation of generateSudoku: seed the diagonal boxes, run the solver on
the seeded board (its boolean result is discarded, as in the source), copy the
board into solution and puzzle, and run the removal loop.  none is returned
when fuel runs out in either loop. -/
def generateSudoku (rng : Nat → Nat) (d : Difficulty) (fuel : Nat) :
    Option (Grid × Grid) :=
  (seedBoxes rng seedPositions emptyGrid 0 fuel).bind fun gk =>
    let board := (solveSudoku gk.1).2
    (removeLoop rng gk.2 0 (cellsToRemoveOf d) board fuel).map fun pk =>
      (pk.1, board)

/-! ### Witness data for the generator -/

/-- Random stream witness: 27 seeding draws followed by 35 removal picks. -/

def rngSeq : List Nat :=
  [0, 1, 2, 3, 4, 5, 6, 7, 8, 2, 5, 4, 7, 8, 6, 1, 0, 3, 8, 6, 7, 4, 2, 0, 5, 3, 1, 0, 0, 0, 6, 1, 0, 0, 7, 1, 6, 2, 1, 0, 8, 1, 7, 2, 7, 2, 4, 3, 1, 1, 8, 0, 4, 3, 5, 1, 3, 2, 8, 0, 5, 4, 2, 4, 8, 3, 8, 5, 1, 5, 8, 4, 3, 1, 2, 2, 5, 5, 4, 6, 3, 3, 0, 4, 7, 6, 7, 6, 8, 2, 6, 7, 3, 7, 8, 1, 1]

/-- The witness random source: read the stream, defaulting to 0 past its end. -/

def rng0 : Nat → Nat := fun n => (rngSeq.get? n).getD 0

/-- The board after the diagonal seeding under rng0. -/

def seedGrid : Grid :=
  [[some 1, some 2, some 3, none, none, none, none, none, none],
   [some 4, some 5, some 6, none, none, none, none, none, none],
   [some 7, some 8, some 9, none, none, none, none, none, none],
   [none, none, none, some 3, some 6, some 5, none, none, none],
   [none, none, none, some 8, some 9, some 7, none, none, none],
   [none, none, none, some 2, some 1, some 4, none, none, none],
   [none, none, none, none, none, none, some 9, some 7, some 8],
   [none, none, none, none, none, none, some 5, some 3, some 1],
   [none, none, none, none, none, none, some 6, some 4, some 2]]

/-- The solved board under rng0. -/

def solGrid : Grid :=
  [[some 1, some 2, some 3, some 4, some 5, some 6, some 7, some 8, some 9],
   [some 4, some 5, some 6, some 7, some 8, some 9, some 1, some 2, some 3],
   [some 7, some 8, some 9, some 1, some 2, some 3, some 4, some 5, some 6],
   [some 2, some 1, some 4, some 3, some 6, some 5, some 8, some 9, some 7],
   [some 3, some 6, some 5, some 8, some 9, some 7, some 2, some 1, some 4],
   [some 8, some 9, some 7, some 2, some 1, some 4, some 3, some 6, some 5],
   [some 5, some 3, some 1, some 6, some 4, some 2, some 9, some 7, some 8],
   [some 6, some 4, some 2, some 9, some 7, some 8, some 5, some 3, some 1],
   [some 9, some 7, some 8, some 5, some 3, some 1, some 6, some 4, some 2]]

def removalStep1 : Grid :=
  [[none, some 2, some 3, some 4, some 5, some 6, some 7, some 8, some 9],
   [some 4, some 5, some 6, some 7, some 8, some 9, some 1, some 2, some 3],
   [some 7, some 8, some 9, some 1, some 2, some 3, some 4, some 5, some 6],
   [some 2, some 1, some 4, some 3, some 6, some 5, some 8, some 9, some 7],
   [some 3, some 6, some 5, some 8, some 9, some 7, some 2, some 1, some 4],
   [some 8, some 9, some 7, some 2, some 1, some 4, some 3, some 6, some 5],
   [some 5, some 3, some 1, some 6, some 4, some 2, some 9, some 7, some 8],
   [some 6, some 4, some 2, some 9, some 7, some 8, some 5, some 3, some 1],
   [some 9, some 7, some 8, some 5, some 3, some 1, some 6, some 4, some 2]]

def removalStep2 : Grid :=
  [[none, some 2, some 3, some 4, some 5, some 6, none, some 8, some 9],
   [some 4, some 5, some 6, some 7, some 8, some 9, some 1, some 2, some 3],
   [some 7, some 8, some 9, some 1, some 2, some 3, some 4, some 5, some 6],
   [some 2, some 1, some 4, some 3, some 6, some 5, some 8, some 9, some 7],
   [some 3, some 6, some 5, some 8, some 9, some 7, some 2, some 1, some 4],
   [some 8, some 9, some 7, some 2, some 1, some 4, some 3, some 6, some 5],
   [some 5, some 3, some 1, some 6, some 4, some 2, some 9, some 7, some 8],
   [some 6, some 4, some 2, some 9, some 7, some 8, some 5, some 3, some 1],
   [some 9, some 7, some 8, some 5, some 3, some 1, some 6, some 4, some 2]]

def removalStep3 : Grid :=
  [[none, some 2, some 3, some 4, some 5, some 6, none, some 8, some 9],
   [none, some 5, some 6, some 7, some 8, some 9, some 1, some 2, some 3],
   [some 7, some 8, some 9, some 1, some 2, some 3, some 4, some 5, some 6],
   [some 2, some 1, some 4, some 3, some 6, some 5, some 8, some 9, some 7],
   [some 3, some 6, some 5, some 8, some 9, some 7, some 2, some 1, some 4],
   [some 8, some 9, some 7, some 2, some 1, some 4, some 3, some 6, some 5],
   [some 5, some 3, some 1, some 6, some 4, some 2, some 9, some 7, some 8],
   [some 6, some 4, some 2, some 9, some 7, some 8, some 5, some 3, some 1],
   [some 9, some 7, some 8, some 5, some 3, some 1, some 6, some 4, some 2]]

def removalStep4 : Grid :=
  [[none, some 2, some 3, some 4, some 5, some 6, none, none, some 9],
   [none, some 5, some 6, some 7, some 8, some 9, some 1, some 2, some 3],
   [some 7, some 8, some 9, some 1, some 2, some 3, some 4, some 5, some 6],
   [some 2, some 1, some 4, some 3, some 6, some 5, some 8, some 9, some 7],
   [some 3, some 6, some 5, some 8, some 9, some 7, some 2, some 1, some 4],
   [some 8, some 9, some 7, some 2, some 1, some 4, some 3, some 6, some 5],
   [some 5, some 3, some 1, some 6, some 4, some 2, some 9, some 7, some 8],
   [some 6, some 4, some 2, some 9, some 7, some 8, some 5, some 3, some 1],
   [some 9, some 7, some 8, some 5, some 3, some 1, some 6, some 4, some 2]]

def removalStep5 : Grid :=
  [[none, some 2, some 3, some 4, some 5, some 6, none, none, some 9],
   [none, some 5, some 6, some 7, some 8, some 9, none, some 2, some 3],
   [some 7, some 8, some 9, some 1, some 2, some 3, some 4, some 5, some 6],
   [some 2, some 1, some 4, some 3, some 6, some 5, some 8, some 9, some 7],
   [some 3, some 6, some 5, some 8, some 9, some 7, some 2, some 1, some 4],
   [some 8, some 9, some 7, some 2, some 1, some 4, some 3, some 6, some 5],
   [some 5, some 3, some 1, some 6, some 4, some 2, some 9, some 7, some 8],
   [some 6, some 4, some 2, some 9, some 7, some 8, some 5, some 3, some 1],
   [some 9, some 7, some 8, some 5, some 3, some 1, some 6, some 4, some 2]]

def removalStep6 : Grid :=
  [[none, some 2, some 3, some 4, some 5, some 6, none, none, some 9],
   [none, some 5, some 6, some 7, some 8, some 9, none, some 2, some 3],
   [some 7, none, some 9, some 1, some 2, some 3, some 4, some 5, some 6],
   [some 2, some 1, some 4, some 3, some 6, some 5, some 8, some 9, some 7],
   [some 3, some 6, some 5, some 8, some 9, some 7, some 2, some 1, some 4],
   [some 8, some 9, some 7, some 2, some 1, some 4, some 3, some 6, some 5],
   [some 5, some 3, some 1, some 6, some 4, some 2, some 9, some 7, some 8],
   [some 6, some 4, some 2, some 9, some 7, some 8, some 5, some 3, some 1],
   [some 9, some 7, some 8, some 5, some 3, some 1, some 6, some 4, some 2]]

def removalStep7 : Grid :=
  [[none, some 2, some 3, some 4, some 5, some 6, none, none, none],
   [none, some 5, some 6, some 7, some 8, some 9, none, some 2, some 3],
   [some 7, none, some 9, some 1, some 2, some 3, some 4, some 5, some 6],
   [some 2, some 1, some 4, some 3, some 6, some 5, some 8, some 9, some 7],
   [some 3, some 6, some 5, some 8, some 9, some 7, some 2, some 1, some 4],
   [some 8, some 9, some 7, some 2, some 1, some 4, some 3, some 6, some 5],
   [some 5, some 3, some 1, some 6, some 4, some 2, some 9, some 7, some 8],
   [some 6, some 4, some 2, some 9, some 7, some 8, some 5, some 3, some 1],
   [some 9, some 7, some 8, some 5, some 3, some 1, some 6, some 4, some 2]]

def removalStep8 : Grid :=
  [[none, some 2, some 3, some 4, some 5, some 6, none, none, none],
   [none, some 5, some 6, some 7, some 8, some 9, none, none, some 3],
   [some 7, none, some 9, some 1, some 2, some 3, some 4, some 5, some 6],
   [some 2, some 1, some 4, some 3, some 6, some 5, some 8, some 9, some 7],
   [some 3, some 6, some 5, some 8, some 9, some 7, some 2, some 1, some 4],
   [some 8, some 9, some 7, some 2, some 1, some 4, some 3, some 6, some 5],
   [some 5, some 3, some 1, some 6, some 4, some 2, some 9, some 7, some 8],
   [some 6, some 4, some 2, some 9, some 7, some 8, some 5, some 3, some 1],
   [some 9, some 7, some 8, some 5, some 3, some 1, some 6, some 4, some 2]]

def removalStep9 : Grid :=
  [[none, some 2, some 3, some 4, some 5, some 6, none, none, none],
   [none, some 5, some 6, some 7, some 8, some 9, none, none, some 3],
   [some 7, none, some 9, some 1, some 2, some 3, some 4, none, some 6],
   [some 2, some 1, some 4, some 3, some 6, some 5, some 8, some 9, some 7],
   [some 3, some 6, some 5, some 8, some 9, some 7, some 2, some 1, some 4],
   [some 8, some 9, some 7, some 2, some 1, some 4, some 3, some 6, some 5],
   [some 5, some 3, some 1, some 6, some 4, some 2, some 9, some 7, some 8],
   [some 6, some 4, some 2, some 9, some 7, some 8, some 5, some 3, some 1],
   [some 9, some 7, some 8, some 5, some 3, some 1, some 6, some 4, some 2]]

def removalStep10 : Grid :=
  [[none, some 2, some 3, some 4, some 5, some 6, none, none, none],
   [none, some 5, some 6, some 7, some 8, some 9, none, none, some 3],
   [some 7, none, some 9, some 1, none, some 3, some 4, none, some 6],
   [some 2, some 1, some 4, some 3, some 6, some 5, some 8, some 9, some 7],
   [some 3, some 6, some 5, some 8, some 9, some 7, some 2, some 1, some 4],
   [some 8, some 9, some 7, some 2, some 1, some 4, some 3, some 6, some 5],
   [some 5, some 3, some 1, some 6, some 4, some 2, some 9, some 7, some 8],
   [some 6, some 4, some 2, some 9, some 7, some 8, some 5, some 3, some 1],
   [some 9, some 7, some 8, some 5, some 3, some 1, some 6, some 4, some 2]]

def removalStep11 : Grid :=
  [[none, some 2, some 3, some 4, some 5, some 6, none, none, none],
   [none, some 5, some 6, some 7, some 8, some 9, none, none, some 3],
   [some 7, none, some 9, some 1, none, some 3, some 4, none, some 6],
   [some 2, none, some 4, some 3, some 6, some 5, some 8, some 9, some 7],
   [some 3, some 6, some 5, some 8, some 9, some 7, some 2, some 1, some 4],
   [some 8, some 9, some 7, some 2, some 1, some 4, some 3, some 6, some 5],
   [some 5, some 3, some 1, some 6, some 4, some 2, some 9, some 7, some 8],
   [some 6, some 4, some 2, some 9, some 7, some 8, some 5, some 3, some 1],
   [some 9, some 7, some 8, some 5, some 3, some 1, some 6, some 4, some 2]]

def removalStep12 : Grid :=
  [[none, some 2, some 3, some 4, some 5, some 6, none, none, none],
   [none, some 5, some 6, some 7, some 8, some 9, none, none, none],
   [some 7, none, some 9, some 1, none, some 3, some 4, none, some 6],
   [some 2, none, some 4, some 3, some 6, some 5, some 8, some 9, some 7],
   [some 3, some 6, some 5, some 8, some 9, some 7, some 2, some 1, some 4],
   [some 8, some 9, some 7, some 2, some 1, some 4, some 3, some 6, some 5],
   [some 5, some 3, some 1, some 6, some 4, some 2, some 9, some 7, some 8],
   [some 6, some 4, some 2, some 9, some 7, some 8, some 5, some 3, some 1],
   [some 9, some 7, some 8, some 5, some 3, some 1, some 6, some 4, some 2]]

def removalStep13 : Grid :=
  [[none, some 2, some 3, some 4, none, some 6, none, none, none],
   [none, some 5, some 6, some 7, some 8, some 9, none, none, none],
   [some 7, none, some 9, some 1, none, some 3, some 4, none, some 6],
   [some 2, none, some 4, some 3, some 6, some 5, some 8, some 9, some 7],
   [some 3, some 6, some 5, some 8, some 9, some 7, some 2, some 1, some 4],
   [some 8, some 9, some 7, some 2, some 1, some 4, some 3, some 6, some 5],
   [some 5, some 3, some 1, some 6, some 4, some 2, some 9, some 7, some 8],
   [some 6, some 4, some 2, some 9, some 7, some 8, some 5, some 3, some 1],
   [some 9, some 7, some 8, some 5, some 3, some 1, some 6, some 4, some 2]]

def removalStep14 : Grid :=
  [[none, some 2, some 3, some 4, none, some 6, none, none, none],
   [none, some 5, some 6, some 7, some 8, some 9, none, none, none],
   [some 7, none, some 9, some 1, none, some 3, some 4, none, some 6],
   [some 2, none, some 4, some 3, some 6, none, some 8, some 9, some 7],
   [some 3, some 6, some 5, some 8, some 9, some 7, some 2, some 1, some 4],
   [some 8, some 9, some 7, some 2, some 1, some 4, some 3, some 6, some 5],
   [some 5, some 3, some 1, some 6, some 4, some 2, some 9, some 7, some 8],
   [some 6, some 4, some 2, some 9, some 7, some 8, some 5, some 3, some 1],
   [some 9, some 7, some 8, some 5, some 3, some 1, some 6, some 4, some 2]]

def removalStep15 : Grid :=
  [[none, some 2, some 3, some 4, none, some 6, none, none, none],
   [none, some 5, some 6, none, some 8, some 9, none, none, none],
   [some 7, none, some 9, some 1, none, some 3, some 4, none, some 6],
   [some 2, none, some 4, some 3, some 6, none, some 8, some 9, some 7],
   [some 3, some 6, some 5, some 8, some 9, some 7, some 2, some 1, some 4],
   [some 8, some 9, some 7, some 2, some 1, some 4, some 3, some 6, some 5],
   [some 5, some 3, some 1, some 6, some 4, some 2, some 9, some 7, some 8],
   [some 6, some 4, some 2, some 9, some 7, some 8, some 5, some 3, some 1],
   [some 9, some 7, some 8, some 5, some 3, some 1, some 6, some 4, some 2]]

def removalStep16 : Grid :=
  [[none, some 2, some 3, some 4, none, some 6, none, none, none],
   [none, some 5, some 6, none, some 8, some 9, none, none, none],
   [some 7, none, some 9, some 1, none, some 3, some 4, none, none],
   [some 2, none, some 4, some 3, some 6, none, some 8, some 9, some 7],
   [some 3, some 6, some 5, some 8, some 9, some 7, some 2, some 1, some 4],
   [some 8, some 9, some 7, some 2, some 1, some 4, some 3, some 6, some 5],
   [some 5, some 3, some 1, some 6, some 4, some 2, some 9, some 7, some 8],
   [some 6, some 4, some 2, some 9, some 7, some 8, some 5, some 3, some 1],
   [some 9, some 7, some 8, some 5, some 3, some 1, some 6, some 4, some 2]]

def removalStep17 : Grid :=
  [[none, some 2, some 3, some 4, none, none, none, none, none],
   [none, some 5, some 6, none, some 8, some 9, none, none, none],
   [some 7, none, some 9, some 1, none, some 3, some 4, none, none],
   [some 2, none, some 4, some 3, some 6, none, some 8, some 9, some 7],
   [some 3, some 6, some 5, some 8, some 9, some 7, some 2, some 1, some 4],
   [some 8, some 9, some 7, some 2, some 1, some 4, some 3, some 6, some 5],
   [some 5, some 3, some 1, some 6, some 4, some 2, some 9, some 7, some 8],
   [some 6, some 4, some 2, some 9, some 7, some 8, some 5, some 3, some 1],
   [some 9, some 7, some 8, some 5, some 3, some 1, some 6, some 4, some 2]]

def removalStep18 : Grid :=
  [[none, some 2, some 3, some 4, none, none, none, none, none],
   [none, some 5, some 6, none, some 8, some 9, none, none, none],
   [some 7, none, some 9, some 1, none, some 3, some 4, none, none],
   [some 2, none, some 4, some 3, some 6, none, some 8, some 9, some 7],
   [some 3, some 6, none, some 8, some 9, some 7, some 2, some 1, some 4],
   [some 8, some 9, some 7, some 2, some 1, some 4, some 3, some 6, some 5],
   [some 5, some 3, some 1, some 6, some 4, some 2, some 9, some 7, some 8],
   [some 6, some 4, some 2, some 9, some 7, some 8, some 5, some 3, some 1],
   [some 9, some 7, some 8, some 5, some 3, some 1, some 6, some 4, some 2]]

def removalStep19 : Grid :=
  [[none, some 2, some 3, some 4, none, none, none, none, none],
   [none, some 5, some 6, none, some 8, some 9, none, none, none],
   [some 7, none, some 9, some 1, none, some 3, some 4, none, none],
   [some 2, none, some 4, some 3, some 6, none, some 8, some 9, some 7],
   [some 3, some 6, none, some 8, some 9, some 7, some 2, some 1, none],
   [some 8, some 9, some 7, some 2, some 1, some 4, some 3, some 6, some 5],
   [some 5, some 3, some 1, some 6, some 4, some 2, some 9, some 7, some 8],
   [some 6, some 4, some 2, some 9, some 7, some 8, some 5, some 3, some 1],
   [some 9, some 7, some 8, some 5, some 3, some 1, some 6, some 4, some 2]]

def removalStep20 : Grid :=
  [[none, some 2, some 3, some 4, none, none, none, none, none],
   [none, some 5, some 6, none, some 8, some 9, none, none, none],
   [some 7, none, some 9, some 1, none, some 3, some 4, none, none],
   [some 2, none, some 4, some 3, some 6, none, some 8, some 9, none],
   [some 3, some 6, none, some 8, some 9, some 7, some 2, some 1, none],
   [some 8, some 9, some 7, some 2, some 1, some 4, some 3, some 6, some 5],
   [some 5, some 3, some 1, some 6, some 4, some 2, some 9, some 7, some 8],
   [some 6, some 4, some 2, some 9, some 7, some 8, some 5, some 3, some 1],
   [some 9, some 7, some 8, some 5, some 3, some 1, some 6, some 4, some 2]]

def removalStep21 : Grid :=
  [[none, some 2, some 3, some 4, none, none, none, none, none],
   [none, some 5, some 6, none, some 8, some 9, none, none, none],
   [some 7, none, some 9, some 1, none, some 3, some 4, none, none],
   [some 2, none, some 4, some 3, some 6, none, some 8, some 9, none],
   [some 3, some 6, none, some 8, some 9, some 7, some 2, some 1, none],
   [some 8, none, some 7, some 2, some 1, some 4, some 3, some 6, some 5],
   [some 5, some 3, some 1, some 6, some 4, some 2, some 9, some 7, some 8],
   [some 6, some 4, some 2, some 9, some 7, some 8, some 5, some 3, some 1],
   [some 9, some 7, some 8, some 5, some 3, some 1, some 6, some 4, some 2]]

def removalStep22 : Grid :=
  [[none, some 2, some 3, some 4, none, none, none, none, none],
   [none, some 5, some 6, none, some 8, some 9, none, none, none],
   [some 7, none, some 9, some 1, none, some 3, some 4, none, none],
   [some 2, none, some 4, some 3, some 6, none, some 8, some 9, none],
   [some 3, some 6, none, some 8, some 9, some 7, some 2, some 1, none],
   [some 8, none, some 7, some 2, some 1, some 4, some 3, some 6, none],
   [some 5, some 3, some 1, some 6, some 4, some 2, some 9, some 7, some 8],
   [some 6, some 4, some 2, some 9, some 7, some 8, some 5, some 3, some 1],
   [some 9, some 7, some 8, some 5, some 3, some 1, some 6, some 4, some 2]]

def removalStep23 : Grid :=
  [[none, some 2, some 3, some 4, none, none, none, none, none],
   [none, some 5, some 6, none, some 8, some 9, none, none, none],
   [some 7, none, some 9, some 1, none, some 3, some 4, none, none],
   [some 2, none, some 4, some 3, some 6, none, some 8, some 9, none],
   [some 3, some 6, none, none, some 9, some 7, some 2, some 1, none],
   [some 8, none, some 7, some 2, some 1, some 4, some 3, some 6, none],
   [some 5, some 3, some 1, some 6, some 4, some 2, some 9, some 7, some 8],
   [some 6, some 4, some 2, some 9, some 7, some 8, some 5, some 3, some 1],
   [some 9, some 7, some 8, some 5, some 3, some 1, some 6, some 4, some 2]]

def removalStep24 : Grid :=
  [[none, some 2, some 3, some 4, none, none, none, none, none],
   [none, some 5, none, none, some 8, some 9, none, none, none],
   [some 7, none, some 9, some 1, none, some 3, some 4, none, none],
   [some 2, none, some 4, some 3, some 6, none, some 8, some 9, none],
   [some 3, some 6, none, none, some 9, some 7, some 2, some 1, none],
   [some 8, none, some 7, some 2, some 1, some 4, some 3, some 6, none],
   [some 5, some 3, some 1, some 6, some 4, some 2, some 9, some 7, some 8],
   [some 6, some 4, some 2, some 9, some 7, some 8, some 5, some 3, some 1],
   [some 9, some 7, some 8, some 5, some 3, some 1, some 6, some 4, some 2]]

def removalStep25 : Grid :=
  [[none, some 2, some 3, some 4, none, none, none, none, none],
   [none, some 5, none, none, some 8, some 9, none, none, none],
   [some 7, none, some 9, some 1, none, none, some 4, none, none],
   [some 2, none, some 4, some 3, some 6, none, some 8, some 9, none],
   [some 3, some 6, none, none, some 9, some 7, some 2, some 1, none],
   [some 8, none, some 7, some 2, some 1, some 4, some 3, some 6, none],
   [some 5, some 3, some 1, some 6, some 4, some 2, some 9, some 7, some 8],
   [some 6, some 4, some 2, some 9, some 7, some 8, some 5, some 3, some 1],
   [some 9, some 7, some 8, some 5, some 3, some 1, some 6, some 4, some 2]]

def removalStep26 : Grid :=
  [[none, some 2, some 3, some 4, none, none, none, none, none],
   [none, some 5, none, none, some 8, some 9, none, none, none],
   [some 7, none, some 9, some 1, none, none, some 4, none, none],
   [some 2, none, some 4, some 3, some 6, none, some 8, some 9, none],
   [some 3, some 6, none, none, some 9, some 7, some 2, some 1, none],
   [some 8, none, some 7, some 2, none, some 4, some 3, some 6, none],
   [some 5, some 3, some 1, some 6, some 4, some 2, some 9, some 7, some 8],
   [some 6, some 4, some 2, some 9, some 7, some 8, some 5, some 3, some 1],
   [some 9, some 7, some 8, some 5, some 3, some 1, some 6, some 4, some 2]]

def removalStep27 : Grid :=
  [[none, some 2, some 3, some 4, none, none, none, none, none],
   [none, some 5, none, none, some 8, some 9, none, none, none],
   [some 7, none, some 9, some 1, none, none, some 4, none, none],
   [some 2, none, some 4, some 3, some 6, none, some 8, some 9, none],
   [some 3, some 6, none, none, some 9, some 7, some 2, some 1, none],
   [some 8, none, some 7, some 2, none, some 4, some 3, some 6, none],
   [some 5, some 3, some 1, none, some 4, some 2, some 9, some 7, some 8],
   [some 6, some 4, some 2, some 9, some 7, some 8, some 5, some 3, some 1],
   [some 9, some 7, some 8, some 5, some 3, some 1, some 6, some 4, some 2]]

def removalStep28 : Grid :=
  [[none, some 2, some 3, some 4, none, none, none, none, none],
   [none, some 5, none, none, some 8, some 9, none, none, none],
   [some 7, none, some 9, some 1, none, none, some 4, none, none],
   [none, none, some 4, some 3, some 6, none, some 8, some 9, none],
   [some 3, some 6, none, none, some 9, some 7, some 2, some 1, none],
   [some 8, none, some 7, some 2, none, some 4, some 3, some 6, none],
   [some 5, some 3, some 1, none, some 4, some 2, some 9, some 7, some 8],
   [some 6, some 4, some 2, some 9, some 7, some 8, some 5, some 3, some 1],
   [some 9, some 7, some 8, some 5, some 3, some 1, some 6, some 4, some 2]]

def removalStep29 : Grid :=
  [[none, some 2, some 3, some 4, none, none, none, none, none],
   [none, some 5, none, none, some 8, some 9, none, none, none],
   [some 7, none, some 9, some 1, none, none, some 4, none, none],
   [none, none, some 4, some 3, some 6, none, some 8, some 9, none],
   [some 3, some 6, none, none, some 9, some 7, some 2, none, none],
   [some 8, none, some 7, some 2, none, some 4, some 3, some 6, none],
   [some 5, some 3, some 1, none, some 4, some 2, some 9, some 7, some 8],
   [some 6, some 4, some 2, some 9, some 7, some 8, some 5, some 3, some 1],
   [some 9, some 7, some 8, some 5, some 3, some 1, some 6, some 4, some 2]]

def removalStep30 : Grid :=
  [[none, some 2, some 3, some 4, none, none, none, none, none],
   [none, some 5, none, none, some 8, some 9, none, none, none],
   [some 7, none, some 9, some 1, none, none, some 4, none, none],
   [none, none, some 4, some 3, some 6, none, some 8, some 9, none],
   [some 3, some 6, none, none, some 9, some 7, some 2, none, none],
   [some 8, none, some 7, some 2, none, some 4, some 3, some 6, none],
   [some 5, some 3, some 1, none, some 4, some 2, some 9, none, some 8],
   [some 6, some 4, some 2, some 9, some 7, some 8, some 5, some 3, some 1],
   [some 9, some 7, some 8, some 5, some 3, some 1, some 6, some 4, some 2]]

def removalStep31 : Grid :=
  [[none, some 2, some 3, some 4, none, none, none, none, none],
   [none, some 5, none, none, some 8, some 9, none, none, none],
   [some 7, none, some 9, some 1, none, none, some 4, none, none],
   [none, none, some 4, some 3, some 6, none, some 8, some 9, none],
   [some 3, some 6, none, none, some 9, some 7, some 2, none, none],
   [some 8, none, some 7, some 2, none, some 4, some 3, some 6, none],
   [some 5, some 3, some 1, none, some 4, some 2, some 9, none, none],
   [some 6, some 4, some 2, some 9, some 7, some 8, some 5, some 3, some 1],
   [some 9, some 7, some 8, some 5, some 3, some 1, some 6, some 4, some 2]]

def removalStep32 : Grid :=
  [[none, some 2, some 3, some 4, none, none, none, none, none],
   [none, some 5, none, none, some 8, some 9, none, none, none],
   [some 7, none, some 9, some 1, none, none, none, none, none],
   [none, none, some 4, some 3, some 6, none, some 8, some 9, none],
   [some 3, some 6, none, none, some 9, some 7, some 2, none, none],
   [some 8, none, some 7, some 2, none, some 4, some 3, some 6, none],
   [some 5, some 3, some 1, none, some 4, some 2, some 9, none, none],
   [some 6, some 4, some 2, some 9, some 7, some 8, some 5, some 3, some 1],
   [some 9, some 7, some 8, some 5, some 3, some 1, some 6, some 4, some 2]]

def removalStep33 : Grid :=
  [[none, some 2, some 3, some 4, none, none, none, none, none],
   [none, some 5, none, none, some 8, some 9, none, none, none],
   [some 7, none, some 9, some 1, none, none, none, none, none],
   [none, none, some 4, some 3, some 6, none, some 8, some 9, none],
   [some 3, some 6, none, none, some 9, some 7, some 2, none, none],
   [some 8, none, some 7, some 2, none, some 4, some 3, some 6, none],
   [some 5, some 3, some 1, none, some 4, some 2, some 9, none, none],
   [some 6, some 4, some 2, none, some 7, some 8, some 5, some 3, some 1],
   [some 9, some 7, some 8, some 5, some 3, some 1, some 6, some 4, some 2]]

def removalStep34 : Grid :=
  [[none, some 2, some 3, some 4, none, none, none, none, none],
   [none, some 5, none, none, some 8, some 9, none, none, none],
   [some 7, none, some 9, some 1, none, none, none, none, none],
   [none, none, some 4, some 3, some 6, none, some 8, some 9, none],
   [some 3, some 6, none, none, some 9, some 7, some 2, none, none],
   [some 8, none, some 7, some 2, none, some 4, some 3, some 6, none],
   [some 5, some 3, some 1, none, some 4, some 2, some 9, none, none],
   [some 6, some 4, some 2, none, some 7, some 8, some 5, some 3, none],
   [some 9, some 7, some 8, some 5, some 3, some 1, some 6, some 4, some 2]]

/-- The puzzle the generator returns under rng0 at difficulty easy. -/

def puzzleGrid : Grid :=
  [[none, some 2, some 3, some 4, none, none, none, none, none],
   [none, none, none, none, some 8, some 9, none, none, none],
   [some 7, none, some 9, some 1, none, none, none, none, none],
   [none, none, some 4, some 3, some 6, none, some 8, some 9, none],
   [some 3, some 6, none, none, some 9, some 7, some 2, none, none],
   [some 8, none, some 7, some 2, none, some 4, some 3, some 6, none],
   [some 5, some 3, some 1, none, some 4, some 2, some 9, none, none],
   [some 6, some 4, some 2, none, some 7, some 8, some 5, some 3, none],
   [some 9, some 7, some 8, some 5, some 3, some 1, some 6, some 4, some 2]]

/-- A full board of 1s: full, but violating every Sudoku constraint. -/
def allOnes : Grid := List.replicate 9 (List.replicate 9 (some 1))

/-- A full board of 2s: full, but violating every Sudoku constraint. -/
def allTwos : Grid := List.replicate 9 (List.replicate 9 (some 2))

/-- A consistent but unsolvable board: row 0 holds 1..8 with its last cell
empty, and 9 already sits in column 8. -/
def stuckGrid : Grid :=
  [[some 1, some 2, some 3, some 4, some 5, some 6, some 7, some 8, none],
   [none, none, none, none, none, none, none, none, some 9],
   [none, none, none, none, none, none, none, none, none],
   [none, none, none, none, none, none, none, none, none],
   [none, none, none, none, none, none, none, none, none],
   [none, none, none, none, none, none, none, none, none],
   [none, none, none, none, none, none, none, none, none],
   [none, none, none, none, none, none, none, none, none],
   [none, none, none, none, none, none, none, none, none]]

/-- A consistent board with a single filled cell. -/
def midGrid : Grid :=
  [[none, none, none, none, none, none, none, none, none],
   [none, none, none, none, none, none, none, none, none],
   [none, none, none, none, none, none, none, none, none],
   [none, none, none, none, none, none, none, none, none],
   [none, none, none, none, some 5, none, none, none, none],
   [none, none, none, none, none, none, none, none, none],
   [none, none, none, none, none, none, none, none, none],
   [none, none, none, none, none, none, none, none, none],
   [none, none, none, none, none, none, none, none, none]]

/-! ### Specification-side predicates -/

/-- A well-shaped board: 9 rows of 9 cells. -/
def isGrid (g : Grid) : Prop := g.length = 9 ∧ ∀ row ∈ g, row.length = 9

/-- No cell of the 9x9 window is empty. -/
def full (g : Grid) : Prop := ∀ r < 9, ∀ c < 9, getCell g r c ≠ none

/-- Every filled cell holds a digit between 1 and 9, the data model's cell
domain. -/
def digitsOk (g : Grid) : Prop :=
  ∀ r < 9, ∀ c < 9, ∀ v : Nat, getCell g r c = some v → 1 ≤ v ∧ v ≤ 9

/-- Two cells share a row, a column, or a 3x3 box (box origin computed as in
isValid). -/
def sameUnit (r1 c1 r2 c2 : Nat) : Prop :=
  r1 = r2 ∨ c1 = c2 ∨ (r1 - r1 % 3 = r2 - r2 % 3 ∧ c1 - c1 % 3 = c2 - c2 % 3)

/-- The standard Sudoku constraint: no digit occurs twice in a row, a column,
or a box. -/
def noDupes (g : Grid) : Prop :=
  ∀ r1 < 9, ∀ c1 < 9, ∀ r2 < 9, ∀ c2 < 9, (r1, c1) ≠ (r2, c2) →
    sameUnit r1 c1 r2 c2 →
      ∀ v : Nat, getCell g r1 c1 = some v → getCell g r2 c2 ≠ some v

/-- Every filled cell of g is filled with the same value in s. -/
def subgrid (g s : Grid) : Prop :=
  ∀ r < 9, ∀ c < 9, ∀ v : Nat, getCell g r c = some v → getCell s r c = some v

/-- s is a valid completion of g: a well-shaped, fully filled board of digits
satisfying the Sudoku constraint and agreeing with every filled cell of g. -/
def completes (s g : Grid) : Prop :=
  isGrid s ∧ full s ∧ digitsOk s ∧ noDupes s ∧ subgrid g s

/-- The 81 cell addresses in row-major order. -/
def allCells : List (Nat × Nat) :=
  (List.range 9).flatMap fun r => (List.range 9).map fun c => (r, c)

/-- Number of empty cells of the 9x9 window. -/
def emptyCount (g : Grid) : Nat :=
  allCells.countP fun p => getCell g p.1 p.2 = none

/-- Number of filled cells of the 9x9 window. -/
def filledCount (g : Grid) : Nat :=
  allCells.countP fun p => getCell g p.1 p.2 ≠ none

/-- The values of row r (out-of-window or empty cells read as 0, which full
grids never produce). -/
def rowVals (g : Grid) (r : Nat) : List Nat :=
  (List.range 9).map fun c => (getCell g r c).getD 0

/-- The values of column c. -/
def colVals (g : Grid) (c : Nat) : List Nat :=
  (List.range 9).map fun r => (getCell g r c).getD 0

/-- The values of box b (boxes numbered 0..8, box b has origin
(3 * (b / 3), 3 * (b % 3)); cell t of the box has offsets (t / 3, t % 3)). -/
def boxVals (g : Grid) (b : Nat) : List Nat :=
  (List.range 9).map fun t =>
    (getCell g (3 * (b / 3) + t / 3) (3 * (b % 3) + t % 3)).getD 0

set_option maxRecDepth 100000

set_option maxHeartbeats 4000000

set_option synthInstance.maxSize 2000

set_option synthInstance.maxHeartbeats 1000000

instance decForallSome (o : Option Nat) (p : Nat → Prop) [DecidablePred p] :
    Decidable (∀ v : Nat, o = some v → p v) :=
  match o with
  | none => isTrue fun _ h => nomatch h
  | some a =>
    decidable_of_iff (p a)
      ⟨fun h v hv => by cases hv; exact h, fun h => h a rfl⟩

instance : DecidablePred isGrid := fun g => by unfold isGrid; infer_instance

instance : DecidablePred full := fun g => by unfold full; infer_instance

instance : DecidablePred digitsOk := fun g => by unfold digitsOk; infer_instance

instance (r1 c1 r2 c2 : Nat) : Decidable (sameUnit r1 c1 r2 c2) := by
  unfold sameUnit; infer_instance

instance : DecidablePred noDupes := fun g => by unfold noDupes; infer_instance

instance (g s : Grid) : Decidable (subgrid g s) := by unfold subgrid; infer_instance

instance (s g : Grid) : Decidable (completes s g) := by unfold completes; infer_instance

/-! ### Cell access lemmas -/

theorem length_setCell (g : Grid) (r c : Nat) (v : Option Nat) :
    (setCell g r c v).length = g.length := by
  unfold setCell; exact List.length_set ..

theorem isGrid_setCell {g : Grid} (hg : isGrid g) (r c : Nat) (v : Option Nat) :
    isGrid (setCell g r c v) := by
  obtain ⟨hlen, hrow⟩ := hg
  refine ⟨by rw [length_setCell, hlen], ?_⟩
  intro row hmem
  unfold setCell at hmem
  by_cases hrl : r < g.length
  · rcases List.mem_or_eq_of_mem_set hmem with h | h
    · exact hrow _ h
    · subst h
      rw [List.getElem?_eq_getElem hrl]
      simp only [Option.getD_some, List.length_set]
      exact hrow _ (List.getElem_mem hrl)
  · rw [List.set_eq_of_length_le (by omega)] at hmem
    exact hrow _ hmem

theorem getCell_setCell_ne {r c r' c' : Nat} (g : Grid) (v : Option Nat)
    (h : r' ≠ r ∨ c' ≠ c) :
    getCell (setCell g r c v) r' c' = getCell g r' c' := by
  unfold getCell setCell
  by_cases hr : r' = r
  · subst hr
    have hc : c' ≠ c := h.resolve_left (by simp)
    rw [List.getElem?_set_self']
    cases hg : g[r']? with
    | none => simp
    | some row => simp [List.getElem?_set_ne (Ne.symm hc)]
  · rw [List.getElem?_set_ne fun hh => hr hh.symm]

theorem getCell_setCell_self {g : Grid} (hg : isGrid g) {r c : Nat}
    (hr : r < 9) (hc : c < 9) (v : Option Nat) :
    getCell (setCell g r c v) r c = v := by
  obtain ⟨hlen, hrow⟩ := hg
  have hrl : r < g.length := by omega
  have hcl : c < (g[r]?.getD []).length := by
    rw [List.getElem?_eq_getElem hrl]
    simp only [Option.getD_some]
    rw [hrow _ (List.getElem_mem hrl)]
    omega
  unfold getCell setCell
  rw [List.getElem?_set_self (by simpa using hrl)]
  simp [List.getElem?_set_self hcl]

theorem setCell_getCell_eq (g : Grid) (r c : Nat) {v : Option Nat}
    (h : getCell g r c = v) : setCell g r c v = g := by
  unfold setCell
  by_cases hrl : r < g.length
  · have hgr : g[r]? = some g[r] := List.getElem?_eq_getElem hrl
    by_cases hcl : c < g[r].length
    · have hval : g[r][c]? = some v := by
        unfold getCell at h
        rw [hgr] at h
        simp only [Option.getD_some] at h
        rw [List.getElem?_eq_getElem hcl] at h ⊢
        simpa using h
      have hsame : g[r].set c v = g[r] := by
        apply List.ext_getElem?
        intro n
        rcases eq_or_ne n c with rfl | hne
        · rw [List.getElem?_set_self hcl, hval]
        · rw [List.getElem?_set_ne (Ne.symm hne)]
      rw [hgr]
      simp only [Option.getD_some, hsame]
      apply List.ext_getElem?
      intro n
      rcases eq_or_ne n r with rfl | hne
      · rw [List.getElem?_set_self hrl, List.getElem?_eq_getElem hrl]
      · rw [List.getElem?_set_ne (Ne.symm hne)]
    · have hnone : getCell g r c = none := by
        unfold getCell
        rw [hgr]
        simp [List.getElem?_eq_none (by omega : g[r].length ≤ c)]
      have hv : v = none := by rw [← h, hnone]
      subst hv
      have hsame : g[r].set c none = g[r] := List.set_eq_of_length_le (by omega)
      rw [hgr]
      simp only [Option.getD_some, hsame]
      apply List.ext_getElem?
      intro n
      rcases eq_or_ne n r with rfl | hne
      · rw [List.getElem?_set_self hrl, List.getElem?_eq_getElem hrl]
      · rw [List.getElem?_set_ne (Ne.symm hne)]
  · rw [List.set_eq_of_length_le (by omega)]

theorem setCell_setCell (g : Grid) (r c : Nat) (v w : Option Nat) :
    setCell (setCell g r c v) r c w = setCell g r c w := by
  unfold setCell
  rw [List.getElem?_set_self']
  cases hgr : g[r]? with
  | none => simp [List.set_set]
  | some row => simp [List.set_set]

/-- Well-shaped boards agreeing on the 9x9 window are equal. -/
theorem grid_ext {g1 g2 : Grid} (h1 : isGrid g1) (h2 : isGrid g2)
    (h : ∀ r < 9, ∀ c < 9, getCell g1 r c = getCell g2 r c) : g1 = g2 := by
  obtain ⟨hl1, hr1⟩ := h1
  obtain ⟨hl2, hr2⟩ := h2
  apply List.ext_getElem?
  intro r
  by_cases hr : r < 9
  · have hrl1 : r < g1.length := by omega
    have hrl2 : r < g2.length := by omega
    rw [List.getElem?_eq_getElem hrl1, List.getElem?_eq_getElem hrl2]
    congr 1
    have m1 : g1[r] ∈ g1 := List.getElem_mem hrl1
    have m2 : g2[r] ∈ g2 := List.getElem_mem hrl2
    apply List.ext_getElem?
    intro c
    by_cases hc : c < 9
    · have hcl1 : c < g1[r].length := by rw [hr1 _ m1]; omega
      have hcl2 : c < g2[r].length := by rw [hr2 _ m2]; omega
      have := h r hr c hc
      unfold getCell at this
      rw [List.getElem?_eq_getElem hrl1, List.getElem?_eq_getElem hrl2] at this
      simp only [Option.getD_some] at this
      rw [List.getElem?_eq_getElem hcl1, List.getElem?_eq_getElem hcl2] at this
      simp only [Option.getD_some] at this
      rw [List.getElem?_eq_getElem hcl1, List.getElem?_eq_getElem hcl2, this]
    · rw [List.getElem?_eq_none (by rw [hr1 _ m1]; omega),
        List.getElem?_eq_none (by rw [hr2 _ m2]; omega)]
  · rw [List.getElem?_eq_none (by omega), List.getElem?_eq_none (by omega)]

/-! ### Counting cells -/

theorem allCells_nodup : allCells.Nodup := by decide

theorem allCells_length : allCells.length = 81 := by decide

theorem mem_allCells {r c : Nat} : (r, c) ∈ allCells ↔ r < 9 ∧ c < 9 := by
  simp only [allCells, List.mem_flatMap, List.mem_map, List.mem_range]
  constructor
  · rintro ⟨a, ha, b, hb, h⟩
    cases h
    exact ⟨ha, hb⟩
  · rintro ⟨hr, hc⟩
    exact ⟨r, hr, c, hc, rfl⟩

theorem countP_update {l : List (Nat × Nat)} (hl : l.Nodup) {q : Nat × Nat}
    (hq : q ∈ l) {p p' : Nat × Nat → Bool}
    (hsame : ∀ x ∈ l, x ≠ q → p x = p' x)
    (hpq : p q = true) (hpq' : p' q = false) :
    l.countP p = l.countP p' + 1 := by
  obtain ⟨l1, l2, rfl⟩ := List.append_of_mem hq
  have hq1 : q ∉ l1 := by
    intro hmem
    exact (List.nodup_append.1 hl).2.2 hmem (List.mem_cons_self _ _)
  have hq2 : q ∉ l2 := by
    have := (List.nodup_append.1 hl).2.1
    exact fun hmem => (List.nodup_cons.1 this).1 hmem
  have e1 : l1.countP p = l1.countP p' :=
    List.countP_congr fun x hx => by
      rw [hsame x (List.mem_append_left _ hx) (fun h => hq1 (h ▸ hx))]
  have e2 : l2.countP p = l2.countP p' :=
    List.countP_congr fun x hx => by
      rw [hsame x (List.mem_append_right _ (List.mem_cons_of_mem _ hx))
        (fun h => hq2 (h ▸ hx))]
  rw [List.countP_append, List.countP_append, List.countP_cons, List.countP_cons,
    hpq, hpq', e1, e2]
  simp
  omega

theorem emptyCount_le (g : Grid) : emptyCount g ≤ 81 :=
  allCells_length ▸ List.countP_le_length _

theorem countP_add_countP_not (l : List (Nat × Nat)) (p : Nat × Nat → Bool) :
    l.countP p + l.countP (fun x => !(p x)) = l.length := by
  induction l with
  | nil => simp
  | cons a l ih =>
    rw [List.countP_cons, List.countP_cons, List.length_cons]
    by_cases h : p a = true
    · have h1 : (if p a = true then 1 else 0) = 1 := by simp [h]
      have h2 : (if (!p a) = true then 1 else 0) = 0 := by simp [h]
      rw [h1, h2]
      omega
    · rw [Bool.not_eq_true] at h
      have h1 : (if p a = true then 1 else 0) = 0 := by simp [h]
      have h2 : (if (!p a) = true then 1 else 0) = 1 := by simp [h]
      rw [h1, h2]
      omega

theorem filledCount_add_emptyCount (g : Grid) :
    filledCount g + emptyCount g = 81 := by
  unfold filledCount emptyCount
  have hbase := countP_add_countP_not allCells
    (fun p => decide (getCell g p.1 p.2 ≠ none))
  rw [allCells_length] at hbase
  have hcongr : (allCells.countP fun p => decide (getCell g p.1 p.2 = none)) =
      allCells.countP fun x => !(decide (getCell g x.1 x.2 ≠ none)) :=
    List.countP_congr fun x _ => by
      by_cases h : getCell g x.1 x.2 = none <;> simp [h]
  rw [hcongr]
  exact hbase

theorem emptyCount_eq_zero_iff (g : Grid) : emptyCount g = 0 ↔ full g := by
  unfold emptyCount full
  rw [List.countP_eq_zero]
  constructor
  · intro h r hr c hc
    have := h (r, c) (mem_allCells.2 ⟨hr, hc⟩)
    simpa using this
  · intro h p hp
    obtain ⟨a, b⟩ := p
    obtain ⟨hr, hc⟩ := mem_allCells.1 hp
    simpa using h a hr b hc

theorem emptyCount_setCell_some {g : Grid} (hg : isGrid g) {r c : Nat}
    (hr : r < 9) (hc : c < 9) (hnone : getCell g r c = none) (v : Nat) :
    emptyCount g = emptyCount (setCell g r c (some v)) + 1 := by
  unfold emptyCount
  refine countP_update allCells_nodup (mem_allCells.2 ⟨hr, hc⟩) ?_ ?_ ?_
  · intro x _ hx
    have : x.1 ≠ r ∨ x.2 ≠ c := by
      by_contra hcon
      push_neg at hcon
      exact hx (Prod.ext hcon.1 hcon.2)
    simp [getCell_setCell_ne _ _ this]
  · simpa using hnone
  · simp [getCell_setCell_self hg hr hc]

theorem filledCount_setCell_none {g : Grid} (hg : isGrid g) {r c : Nat}
    (hr : r < 9) (hc : c < 9) {v : Nat} (hv : getCell g r c = some v) :
    filledCount g = filledCount (setCell g r c none) + 1 := by
  unfold filledCount
  refine countP_update allCells_nodup (mem_allCells.2 ⟨hr, hc⟩) ?_ ?_ ?_
  · intro x _ hx
    have : x.1 ≠ r ∨ x.2 ≠ c := by
      by_contra hcon
      push_neg at hcon
      exact hx (Prod.ext hcon.1 hcon.2)
    simp [getCell_setCell_ne _ _ this]
  · simp [hv]
  · simp [getCell_setCell_self hg hr hc]

theorem filledCount_eq_of_full {g : Grid} (hfull : full g) :
    filledCount g = 81 := by
  have h0 : emptyCount g = 0 := (emptyCount_eq_zero_iff g).2 hfull
  have := filledCount_add_emptyCount g
  omega

/-! ### findEmpty -/

theorem findSome?_range_eq_none_iff {β : Type} {n : Nat} {f : Nat → Option β} :
    (List.range n).findSome? f = none ↔ ∀ i < n, f i = none := by
  rw [List.findSome?_eq_none_iff]
  simp [List.mem_range]

theorem findSome?_range_eq_some {β : Type} {n : Nat} {f : Nat → Option β}
    {b : β} (h : (List.range n).findSome? f = some b) :
    ∃ i < n, f i = some b ∧ ∀ j < i, f j = none := by
  obtain ⟨l1, a, l2, hsplit, hfa, hnone⟩ := List.findSome?_eq_some_iff.1 h
  have hlen : l1.length < n := by
    have := congrArg List.length hsplit
    simp [List.length_range, List.length_append] at this
    omega
  have ha : a = l1.length := by
    have h1 : (List.range n)[l1.length]? = some l1.length := by
      simp [List.getElem?_range hlen]
    have h2 : (List.range n)[l1.length]? = some a := by
      rw [hsplit]
      rw [List.getElem?_append_right (le_refl _)]
      simp
    rw [h1] at h2
    exact (Option.some.injEq _ _ ▸ h2).symm
  subst ha
  refine ⟨l1.length, hlen, hfa, ?_⟩
  intro j hj
  have hjmem : j ∈ l1 := by
    have h1 : (List.range n)[j]? = some j := by
      simp [List.getElem?_range (by omega : j < n)]
    have h2 : (List.range n)[j]? = l1[j]? := by
      rw [hsplit, List.getElem?_append_left hj]
    rw [h1] at h2
    exact List.getElem?_mem h2.symm
  exact hnone _ hjmem

theorem findEmpty_eq_none_iff (g : Grid) : findEmpty g = none ↔ full g := by
  unfold findEmpty full
  rw [findSome?_range_eq_none_iff]
  constructor
  · intro h r hr c hc
    have := (findSome?_range_eq_none_iff).1 (h r hr) c hc
    by_contra hcon
    simp [hcon] at this
  · intro h r hr
    rw [findSome?_range_eq_none_iff]
    intro c hc
    simp [h r hr c hc]

theorem findEmpty_eq_some {g : Grid} {r c : Nat}
    (h : findEmpty g = some (r, c)) :
    r < 9 ∧ c < 9 ∧ getCell g r c = none ∧
      ∀ r' < 9, ∀ c' < 9, (r' < r ∨ (r' = r ∧ c' < c)) →
        getCell g r' c' ≠ none := by
  unfold findEmpty at h
  obtain ⟨i, hi, hfi, hearlier⟩ := findSome?_range_eq_some h
  obtain ⟨j, hj, hfj, hearlier2⟩ := findSome?_range_eq_some hfi
  have hij : i = r ∧ j = c ∧ getCell g i j = none := by
    by_cases hcell : getCell g i j = none
    · rw [if_pos hcell] at hfj
      have hpair := Option.some.inj hfj
      exact ⟨congrArg Prod.fst hpair, congrArg Prod.snd hpair, hcell⟩
    · rw [if_neg hcell] at hfj
      exact absurd hfj (by simp)
  obtain ⟨rfl, rfl, hcell⟩ := hij
  refine ⟨hi, hj, hcell, ?_⟩
  intro r' hr' c' hc' horder hcon
  rcases horder with hlt | ⟨rfl, hlt⟩
  · have := hearlier r' hlt
    rw [findSome?_range_eq_none_iff] at this
    have := this c' hc'
    simp [hcon] at this
  · have := hearlier2 c' hlt
    simp [hcon] at this

theorem findEmpty_none_of_full {g : Grid} (h : full g) : findEmpty g = none :=
  (findEmpty_eq_none_iff g).2 h

/-! ### isValid -/

theorem isValid_iff (board : Grid) (row col num : Nat) :
    isValid board row col num = true ↔
      (∀ x < 9, getCell board row x ≠ some num) ∧
      (∀ x < 9, getCell board x col ≠ some num) ∧
      (∀ i < 3, ∀ j < 3,
        getCell board (i + (row - row % 3)) (j + (col - col % 3)) ≠ some num) := by
  unfold isValid
  simp only [Bool.and_eq_true, List.all_eq_true, List.mem_range, Bool.not_eq_true',
    beq_eq_false_iff_ne, ne_eq, and_assoc]

theorem isValid_eq_false_iff (board : Grid) (row col num : Nat) :
    isValid board row col num = false ↔
      (∃ x < 9, getCell board row x = some num) ∨
      (∃ x < 9, getCell board x col = some num) ∨
      (∃ i < 3, ∃ j < 3,
        getCell board (i + (row - row % 3)) (j + (col - col % 3)) = some num) := by
  rw [← Bool.not_eq_true, isValid_iff]
  constructor
  · intro h
    by_contra hcon
    push_neg at hcon
    obtain ⟨h1, h2, h3⟩ := hcon
    exact h ⟨h1, h2, h3⟩
  · rintro (⟨x, hx, hcell⟩ | ⟨x, hx, hcell⟩ | ⟨i, hi, j, hj, hcell⟩) ⟨h1, h2, h3⟩
    · exact h1 x hx hcell
    · exact h2 x hx hcell
    · exact h3 i hi j hj hcell

theorem isValid_iff_unit {board : Grid} {row col : Nat} (hr : row < 9)
    (hc : col < 9) (num : Nat) :
    isValid board row col num = true ↔
      ∀ r' < 9, ∀ c' < 9, sameUnit row col r' c' →
        getCell board r' c' ≠ some num := by
  rw [isValid_iff]
  constructor
  · rintro ⟨h1, h2, h3⟩ r' hr' c' hc' hunit
    rcases hunit with rfl | rfl | ⟨hbr, hbc⟩
    · exact h1 c' hc'
    · exact h2 r' hr'
    · have hi : r' - (row - row % 3) < 3 := by omega
      have hj : c' - (col - col % 3) < 3 := by omega
      have := h3 _ hi _ hj
      have hr'' : r' - (row - row % 3) + (row - row % 3) = r' := by omega
      have hc'' : c' - (col - col % 3) + (col - col % 3) = c' := by omega
      rwa [hr'', hc''] at this
  · intro h
    refine ⟨?_, ?_, ?_⟩
    · intro x hx
      exact h row hr x hx (Or.inl rfl)
    · intro x hx
      exact h x hx col hc (Or.inr (Or.inl rfl))
    · intro i hi j hj
      refine h _ (by omega) _ (by omega) (Or.inr (Or.inr ⟨by omega, by omega⟩))

/-! ### Preservation of the grid invariants -/

theorem emptyCount_pos {g : Grid} {r c : Nat} (hr : r < 9) (hc : c < 9)
    (h : getCell g r c = none) : 0 < emptyCount g := by
  unfold emptyCount
  rw [List.countP_pos_iff]
  exact ⟨(r, c), mem_allCells.2 ⟨hr, hc⟩, by simpa using h⟩

theorem subgrid_refl (g : Grid) : subgrid g g := fun _ _ _ _ _ h => h

theorem subgrid_trans {g1 g2 g3 : Grid} (h12 : subgrid g1 g2)
    (h23 : subgrid g2 g3) : subgrid g1 g3 :=
  fun r hr c hc v hv => h23 r hr c hc v (h12 r hr c hc v hv)

theorem subgrid_setCell_some {g : Grid} {r c : Nat}
    (hcell : getCell g r c = none) (n : Nat) :
    subgrid g (setCell g r c (some n)) := by
  intro r' hr' c' hc' v hv
  by_cases h : r' ≠ r ∨ c' ≠ c
  · rw [getCell_setCell_ne _ _ h]
    exact hv
  · push_neg at h
    obtain ⟨rfl, rfl⟩ := h
    rw [hcell] at hv
    exact absurd hv (by simp)

theorem sameUnit_symm {r1 c1 r2 c2 : Nat} (h : sameUnit r1 c1 r2 c2) :
    sameUnit r2 c2 r1 c1 := by
  unfold sameUnit at h ⊢
  tauto

theorem noDupes_setCell {g : Grid} (hg : isGrid g) {r c n : Nat} (hr : r < 9)
    (hc : c < 9) (hcell : getCell g r c = none)
    (hval : isValid g r c n = true) (hnd : noDupes g) :
    noDupes (setCell g r c (some n)) := by
  have hunit := (isValid_iff_unit hr hc n).1 hval
  intro r1 hr1 c1 hc1 r2 hr2 c2 hc2 hne hsame v hv1 hv2
  by_cases h1 : r1 ≠ r ∨ c1 ≠ c
  · rw [getCell_setCell_ne _ _ h1] at hv1
    by_cases h2 : r2 ≠ r ∨ c2 ≠ c
    · rw [getCell_setCell_ne _ _ h2] at hv2
      exact hnd r1 hr1 c1 hc1 r2 hr2 c2 hc2 hne hsame v hv1 hv2
    · push_neg at h2
      obtain ⟨rfl, rfl⟩ := h2
      rw [getCell_setCell_self hg hr hc] at hv2
      have hveq : v = n := by simpa using hv2.symm
      subst hveq
      exact hunit r1 hr1 c1 hc1 (sameUnit_symm hsame) hv1
  · push_neg at h1
    obtain ⟨rfl, rfl⟩ := h1
    rw [getCell_setCell_self hg hr hc] at hv1
    have hveq : n = v := by simpa using hv1
    subst hveq
    have h2 : r2 ≠ r1 ∨ c2 ≠ c1 := by
      by_contra hcon
      push_neg at hcon
      exact hne (by rw [hcon.1, hcon.2])
    rw [getCell_setCell_ne _ _ h2] at hv2
    exact hunit r2 hr2 c2 hc2 hsame hv2

theorem digitsOk_setCell {g : Grid} (hg : isGrid g) {r c n : Nat} (hr : r < 9)
    (hc : c < 9) (h1 : 1 ≤ n) (h9 : n ≤ 9) (hd : digitsOk g) :
    digitsOk (setCell g r c (some n)) := by
  intro r' hr' c' hc' v hv
  by_cases h : r' ≠ r ∨ c' ≠ c
  · rw [getCell_setCell_ne _ _ h] at hv
    exact hd r' hr' c' hc' v hv
  · push_neg at h
    obtain ⟨rfl, rfl⟩ := h
    rw [getCell_setCell_self hg hr hc] at hv
    have : n = v := by simpa using hv
    omega

theorem noDupes_of_subgrid {p s : Grid} (hsub : subgrid p s) (hnd : noDupes s) :
    noDupes p := by
  intro r1 hr1 c1 hc1 r2 hr2 c2 hc2 hne hsame v hv1 hv2
  exact hnd r1 hr1 c1 hc1 r2 hr2 c2 hc2 hne hsame v
    (hsub r1 hr1 c1 hc1 v hv1) (hsub r2 hr2 c2 hc2 v hv2)

theorem digitsOk_of_subgrid {p s : Grid} (hsub : subgrid p s) (hd : digitsOk s) :
    digitsOk p := by
  intro r hr c hc v hv
  exact hd r hr c hc v (hsub r hr c hc v hv)

/-! ### The candidate loop of the solver -/

theorem solveNums_nil (slv : Grid → Bool × Grid) (g : Grid) (r c : Nat) :
    solveNums slv g r c [] = (false, g) := rfl

theorem solveNums_fst_false {slv : Grid → Bool × Grid} {g : Grid} {r c : Nat}
    {ns : List Nat}
    (hrest : ∀ g', (slv g').1 = false → (slv g').2 = g')
    (hcell : getCell g r c = none)
    (h : (solveNums slv g r c ns).1 = false) :
    (solveNums slv g r c ns).2 = g := by
  induction ns generalizing g with
  | nil => rfl
  | cons n ns ih =>
    by_cases hval : isValid g r c n = true
    · rcases hslv : slv (setCell g r c (some n)) with ⟨b, g1⟩
      cases b
      · have hg1 : g1 = setCell g r c (some n) := by
          have := hrest (setCell g r c (some n))
          rw [hslv] at this
          exact this rfl
        have hback : setCell g1 r c none = g := by
          rw [hg1, setCell_setCell]
          exact setCell_getCell_eq g r c hcell
        simp only [solveNums, if_pos hval, hslv] at h ⊢
        rw [hback] at h ⊢
        exact ih hcell h
      · exfalso
        simp only [solveNums, if_pos hval, hslv] at h
        exact absurd h (by simp)
    · simp only [solveNums, if_neg hval] at h ⊢
      exact ih hcell h

theorem solveNums_fst_true {slv : Grid → Bool × Grid} {g : Grid} {r c : Nat}
    {ns : List Nat}
    (hrest : ∀ g', (slv g').1 = false → (slv g').2 = g')
    (hcell : getCell g r c = none)
    (h : (solveNums slv g r c ns).1 = true) :
    ∃ ns1 n ns2, ns = ns1 ++ n :: ns2 ∧ isValid g r c n = true ∧
      slv (setCell g r c (some n)) = (true, (solveNums slv g r c ns).2) ∧
      ∀ m ∈ ns1, isValid g r c m = true →
        (slv (setCell g r c (some m))).1 = false := by
  induction ns generalizing g with
  | nil => exact absurd h (by simp [solveNums_nil])
  | cons n ns ih =>
    by_cases hval : isValid g r c n = true
    · rcases hslv : slv (setCell g r c (some n)) with ⟨b, g1⟩
      cases b
      · have hg1 : g1 = setCell g r c (some n) := by
          have := hrest (setCell g r c (some n))
          rw [hslv] at this
          exact this rfl
        have hback : setCell g1 r c none = g := by
          rw [hg1, setCell_setCell]
          exact setCell_getCell_eq g r c hcell
        simp only [solveNums, if_pos hval, hslv] at h ⊢
        rw [hback] at h ⊢
        obtain ⟨ns1, m, ns2, hsplit, hmval, hmslv, hfail⟩ := ih hcell h
        refine ⟨n :: ns1, m, ns2, by rw [hsplit]; rfl, hmval, hmslv, ?_⟩
        intro m' hm' hval'
        rcases List.mem_cons.1 hm' with rfl | hm'
        · rw [hslv]
        · exact hfail m' hm' hval'
      · simp only [solveNums, if_pos hval, hslv] at h ⊢
        exact ⟨[], n, ns, rfl, hval, by rw [hslv], by simp⟩
    · simp only [solveNums, if_neg hval] at h ⊢
      obtain ⟨ns1, m, ns2, hsplit, hmval, hmslv, hfail⟩ := ih hcell h
      refine ⟨n :: ns1, m, ns2, by rw [hsplit]; rfl, hmval, hmslv, ?_⟩
      intro m' hm' hval'
      rcases List.mem_cons.1 hm' with rfl | hm'
      · exact absurd hval' (by simpa using hval)
      · exact hfail m' hm' hval'

theorem solveNums_mem_true {slv : Grid → Bool × Grid} {g : Grid} {r c n : Nat}
    {ns : List Nat}
    (hrest : ∀ g', (slv g').1 = false → (slv g').2 = g')
    (hcell : getCell g r c = none)
    (hmem : n ∈ ns) (hval : isValid g r c n = true)
    (hwin : (slv (setCell g r c (some n))).1 = true) :
    (solveNums slv g r c ns).1 = true := by
  induction ns generalizing g with
  | nil => exact absurd hmem (by simp)
  | cons m ns ih =>
    by_cases hmval : isValid g r c m = true
    · rcases hslv : slv (setCell g r c (some m)) with ⟨b, g1⟩
      cases b
      · have hg1 : g1 = setCell g r c (some m) := by
          have := hrest (setCell g r c (some m))
          rw [hslv] at this
          exact this rfl
        have hback : setCell g1 r c none = g := by
          rw [hg1, setCell_setCell]
          exact setCell_getCell_eq g r c hcell
        rcases List.mem_cons.1 hmem with rfl | hmem'
        · rw [hslv] at hwin
          exact absurd hwin (by simp)
        · simp only [solveNums, if_pos hmval, hslv]
          rw [hback]
          exact ih hcell hmem' hval hwin
      · simp only [solveNums, if_pos hmval, hslv]
    · rcases List.mem_cons.1 hmem with rfl | hmem'
      · exact absurd hval hmval
      · simp only [solveNums, if_neg hmval]
        exact ih hcell hmem' hval hwin

theorem solveNums_congr {slv1 slv2 : Grid → Bool × Grid} {g : Grid}
    {r c : Nat} {ns : List Nat}
    (hrest : ∀ g', (slv2 g').1 = false → (slv2 g').2 = g')
    (hcell : getCell g r c = none)
    (hagree : ∀ n ∈ ns, slv1 (setCell g r c (some n)) = slv2 (setCell g r c (some n))) :
    solveNums slv1 g r c ns = solveNums slv2 g r c ns := by
  induction ns generalizing g with
  | nil => rfl
  | cons n ns ih =>
    by_cases hval : isValid g r c n = true
    · have heq := hagree n (List.mem_cons_self _ _)
      rcases hslv : slv2 (setCell g r c (some n)) with ⟨b, g1⟩
      rw [hslv] at heq
      cases b
      · have hg1 : g1 = setCell g r c (some n) := by
          have := hrest (setCell g r c (some n))
          rw [hslv] at this
          exact this rfl
        have hback : setCell g1 r c none = g := by
          rw [hg1, setCell_setCell]
          exact setCell_getCell_eq g r c hcell
        simp only [solveNums, if_pos hval, hslv, heq]
        rw [hback]
        exact ih hcell fun m hm => hagree m (List.mem_cons_of_mem _ hm)
      · simp only [solveNums, if_pos hval, hslv, heq]
    · simp only [solveNums, if_neg hval]
      exact ih hcell fun m hm => hagree m (List.mem_cons_of_mem _ hm)


/-! ### The solver -/

theorem mem_range19 {n : Nat} : n ∈ List.range' 1 9 ↔ 1 ≤ n ∧ n ≤ 9 := by
  rw [List.mem_range']
  constructor
  · rintro ⟨i, hi, rfl⟩
    omega
  · rintro ⟨h1, h9⟩
    exact ⟨n - 1, by omega, by omega⟩

theorem solveFuel_of_full {g : Grid} (f : Nat) (h : full g) :
    solveFuel f g = (true, g) := by
  have hfe := findEmpty_none_of_full h
  cases f <;> simp [solveFuel, hfe]

theorem solveFuel_fst_false : ∀ {f : Nat} {g : Grid},
    (solveFuel f g).1 = false → (solveFuel f g).2 = g := by
  intro f
  induction f with
  | zero =>
    intro g h
    cases hfe : findEmpty g <;> simp [solveFuel, hfe]
  | succ f ih =>
    intro g h
    cases hfe : findEmpty g with
    | none => simp [solveFuel, hfe] at h
    | some rc =>
      obtain ⟨r, c⟩ := rc
      have hcell := (findEmpty_eq_some hfe).2.2.1
      have huf : solveFuel (f + 1) g =
          solveNums (fun g1 => solveFuel f g1) g r c (List.range' 1 9) := by
        simp [solveFuel, hfe]
      rw [huf] at h ⊢
      exact solveNums_fst_false (fun g' h' => ih h') hcell h

theorem solveFuel_fst_true : ∀ {f : Nat} {g : Grid},
    (solveFuel f g).1 = true →
      full (solveFuel f g).2 ∧ subgrid g (solveFuel f g).2 ∧
      (isGrid g → isGrid (solveFuel f g).2 ∧
        (digitsOk g → digitsOk (solveFuel f g).2) ∧
        (digitsOk g → noDupes g → noDupes (solveFuel f g).2)) := by
  intro f
  induction f with
  | zero =>
    intro g h
    cases hfe : findEmpty g with
    | none =>
      have hres : solveFuel 0 g = (true, g) := by simp [solveFuel, hfe]
      rw [hres]
      exact ⟨(findEmpty_eq_none_iff g).1 hfe, subgrid_refl g,
        fun hg => ⟨hg, fun hd => hd, fun _ hn => hn⟩⟩
    | some rc =>
      exfalso
      simp [solveFuel, hfe] at h
  | succ f ih =>
    intro g h
    cases hfe : findEmpty g with
    | none =>
      have hres : solveFuel (f + 1) g = (true, g) := by simp [solveFuel, hfe]
      rw [hres]
      exact ⟨(findEmpty_eq_none_iff g).1 hfe, subgrid_refl g,
        fun hg => ⟨hg, fun hd => hd, fun _ hn => hn⟩⟩
    | some rc =>
      obtain ⟨r, c⟩ := rc
      obtain ⟨hr, hc, hcell, -⟩ := findEmpty_eq_some hfe
      have huf : solveFuel (f + 1) g =
          solveNums (fun g1 => solveFuel f g1) g r c (List.range' 1 9) := by
        simp [solveFuel, hfe]
      rw [huf] at h ⊢
      obtain ⟨ns1, n, ns2, hsplit, hval, hslv, -⟩ :=
        solveNums_fst_true (fun g' h' => solveFuel_fst_false h') hcell h
      have hn19 : 1 ≤ n ∧ n ≤ 9 := by
        refine mem_range19.1 ?_
        rw [hsplit]
        exact List.mem_append_right _ (List.mem_cons_self _ _)
      have hsub1 : subgrid g (setCell g r c (some n)) := subgrid_setCell_some hcell n
      have htrue : (solveFuel f (setCell g r c (some n))).1 = true := by
        rw [hslv]
      have ihres := ih htrue
      rw [hslv] at ihres
      simp only at ihres
      obtain ⟨hfull2, hsub2, hrest2⟩ := ihres
      refine ⟨hfull2, subgrid_trans hsub1 hsub2, ?_⟩
      intro hg
      obtain ⟨hgo, hdo, hno⟩ := hrest2 (isGrid_setCell hg r c _)
      exact ⟨hgo,
        fun hd => hdo (digitsOk_setCell hg hr hc hn19.1 hn19.2 hd),
        fun hd hn => hno (digitsOk_setCell hg hr hc hn19.1 hn19.2 hd)
          (noDupes_setCell hg hr hc hcell hval hn)⟩

theorem solveFuel_complete : ∀ {f : Nat} {g s : Grid}, isGrid g →
    emptyCount g ≤ f → completes s g → (solveFuel f g).1 = true := by
  intro f
  induction f with
  | zero =>
    intro g s hg hfuel _
    have hfull : full g := (emptyCount_eq_zero_iff g).1 (by omega)
    rw [solveFuel_of_full _ hfull]
  | succ f ih =>
    intro g s hg hfuel hs
    cases hfe : findEmpty g with
    | none =>
      rw [solveFuel_of_full _ ((findEmpty_eq_none_iff g).1 hfe)]
    | some rc =>
      obtain ⟨r, c⟩ := rc
      obtain ⟨hr, hc, hcell, -⟩ := findEmpty_eq_some hfe
      obtain ⟨hsg, hsfull, hsdig, hsnd, hssub⟩ := hs
      obtain ⟨v, hv⟩ : ∃ v, getCell s r c = some v := by
        cases hcase : getCell s r c with
        | none => exact absurd hcase (hsfull r hr c hc)
        | some v => exact ⟨v, rfl⟩
      have hv19 := hsdig r hr c hc v hv
      have hval : isValid g r c v = true := by
        rw [isValid_iff_unit hr hc]
        intro r' hr' c' hc' hunit hcon
        have hs' := hssub r' hr' c' hc' v hcon
        have hne : (r, c) ≠ (r', c') := by
          intro heq
          have h1 : r = r' := congrArg Prod.fst heq
          have h2 : c = c' := congrArg Prod.snd heq
          rw [← h1, ← h2] at hcon
          rw [hcon] at hcell
          exact absurd hcell (by simp)
        exact hsnd r hr c hc r' hr' c' hc' hne hunit v hv hs'
      have hcompletes' : completes s (setCell g r c (some v)) := by
        refine ⟨hsg, hsfull, hsdig, hsnd, ?_⟩
        intro r' hr' c' hc' w hw
        by_cases hne : r' ≠ r ∨ c' ≠ c
        · rw [getCell_setCell_ne _ _ hne] at hw
          exact hssub r' hr' c' hc' w hw
        · push_neg at hne
          obtain ⟨rfl, rfl⟩ := hne
          rw [getCell_setCell_self hg hr hc] at hw
          have : v = w := by simpa using hw
          rw [← this]
          exact hv
      have hec : emptyCount (setCell g r c (some v)) ≤ f := by
        have := emptyCount_setCell_some hg hr hc hcell v
        omega
      have hwin := ih (isGrid_setCell hg r c _) hec hcompletes'
      have hmem : v ∈ List.range' 1 9 := mem_range19.2 ⟨hv19.1, hv19.2⟩
      have huf : solveFuel (f + 1) g =
          solveNums (fun g1 => solveFuel f g1) g r c (List.range' 1 9) := by
        simp [solveFuel, hfe]
      rw [huf]
      exact solveNums_mem_true (fun g' h' => solveFuel_fst_false h') hcell hmem hval hwin

theorem solveFuel_succ : ∀ (f : Nat) {g : Grid}, isGrid g → emptyCount g ≤ f →
    solveFuel (f + 1) g = solveFuel f g := by
  intro f
  induction f using Nat.strong_induction_on with
  | _ f ih =>
    intro g hg hfuel
    cases hfe : findEmpty g with
    | none => cases f <;> simp [solveFuel, hfe]
    | some rc =>
      obtain ⟨r, c⟩ := rc
      obtain ⟨hr, hc, hcell, -⟩ := findEmpty_eq_some hfe
      have hpos : 0 < emptyCount g := emptyCount_pos hr hc hcell
      obtain ⟨f', rfl⟩ : ∃ f', f = f' + 1 := ⟨f - 1, by omega⟩
      have h1 : solveFuel (f' + 1 + 1) g =
          solveNums (fun g1 => solveFuel (f' + 1) g1) g r c (List.range' 1 9) := by
        simp [solveFuel, hfe]
      have h2 : solveFuel (f' + 1) g =
          solveNums (fun g1 => solveFuel f' g1) g r c (List.range' 1 9) := by
        simp [solveFuel, hfe]
      rw [h1, h2]
      apply solveNums_congr (fun g' h' => solveFuel_fst_false h') hcell
      intro n hn
      apply ih f' (by omega) (isGrid_setCell hg r c _)
      have := emptyCount_setCell_some hg hr hc hcell n
      omega

theorem solveFuel_eq_of_le {g : Grid} (hg : isGrid g) {f1 f2 : Nat}
    (h1 : emptyCount g ≤ f1) (hle : f1 ≤ f2) :
    solveFuel f2 g = solveFuel f1 g := by
  obtain ⟨d, rfl⟩ := Nat.exists_eq_add_of_le hle
  induction d with
  | zero => rfl
  | succ d ihd =>
    have : f1 + (d + 1) = (f1 + d) + 1 := rfl
    rw [this, solveFuel_succ (f1 + d) hg (by omega), ihd (by omega)]

theorem solveFuel_congr {g : Grid} (hg : isGrid g) {f1 f2 : Nat}
    (h1 : emptyCount g ≤ f1) (h2 : emptyCount g ≤ f2) :
    solveFuel f1 g = solveFuel f2 g := by
  rcases le_total f1 f2 with h | h
  · rw [solveFuel_eq_of_le hg h1 h]
  · rw [solveFuel_eq_of_le hg h2 h]


/-! ### The enumerator of completions -/

theorem solsNums_mem {sols : Grid → List Grid} {g : Grid} {r c : Nat}
    {ns : List Nat} {s : Grid} :
    s ∈ solsNums sols g r c ns ↔
      ∃ n ∈ ns, isValid g r c n = true ∧ s ∈ sols (setCell g r c (some n)) := by
  induction ns with
  | nil => simp [solsNums]
  | cons n ns ih =>
    simp only [solsNums, List.mem_append, ih]
    constructor
    · rintro (hmem | ⟨m, hm, hval, hmem⟩)
      · by_cases hval : isValid g r c n = true
        · rw [if_pos hval] at hmem
          exact ⟨n, List.mem_cons_self _ _, hval, hmem⟩
        · rw [if_neg hval] at hmem
          exact absurd hmem (by simp)
      · exact ⟨m, List.mem_cons_of_mem _ hm, hval, hmem⟩
    · rintro ⟨m, hm, hval, hmem⟩
      rcases List.mem_cons.1 hm with rfl | hm'
      · exact Or.inl (by rw [if_pos hval]; exact hmem)
      · exact Or.inr ⟨m, hm', hval, hmem⟩

theorem solsFuel_mem_props : ∀ {f : Nat} {g s : Grid}, s ∈ solsFuel f g →
    subgrid g s ∧ full s ∧
    (isGrid g → isGrid s ∧ (digitsOk g → digitsOk s) ∧
      (digitsOk g → noDupes g → noDupes s)) := by
  intro f
  induction f with
  | zero =>
    intro g s hmem
    cases hfe : findEmpty g with
    | none =>
      have : solsFuel 0 g = [g] := by simp [solsFuel, hfe]
      rw [this] at hmem
      have hs : s = g := by simpa using hmem
      subst hs
      exact ⟨subgrid_refl s, (findEmpty_eq_none_iff s).1 hfe,
        fun hg => ⟨hg, fun hd => hd, fun _ hn => hn⟩⟩
    | some rc =>
      have : solsFuel 0 g = [] := by simp [solsFuel, hfe]
      rw [this] at hmem
      exact absurd hmem (by simp)
  | succ f ih =>
    intro g s hmem
    cases hfe : findEmpty g with
    | none =>
      have : solsFuel (f + 1) g = [g] := by simp [solsFuel, hfe]
      rw [this] at hmem
      have hs : s = g := by simpa using hmem
      subst hs
      exact ⟨subgrid_refl s, (findEmpty_eq_none_iff s).1 hfe,
        fun hg => ⟨hg, fun hd => hd, fun _ hn => hn⟩⟩
    | some rc =>
      obtain ⟨r, c⟩ := rc
      obtain ⟨hr, hc, hcell, -⟩ := findEmpty_eq_some hfe
      have huf : solsFuel (f + 1) g =
          solsNums (fun g1 => solsFuel f g1) g r c (List.range' 1 9) := by
        simp [solsFuel, hfe]
      rw [huf] at hmem
      obtain ⟨n, hn, hval, hmem'⟩ := solsNums_mem.1 hmem
      have hn19 : 1 ≤ n ∧ n ≤ 9 := mem_range19.1 hn
      obtain ⟨hsub2, hfull2, hrest2⟩ := ih hmem'
      refine ⟨subgrid_trans (subgrid_setCell_some hcell n) hsub2, hfull2, ?_⟩
      intro hg
      obtain ⟨hgo, hdo, hno⟩ := hrest2 (isGrid_setCell hg r c _)
      exact ⟨hgo,
        fun hd => hdo (digitsOk_setCell hg hr hc hn19.1 hn19.2 hd),
        fun hd hn' => hno (digitsOk_setCell hg hr hc hn19.1 hn19.2 hd)
          (noDupes_setCell hg hr hc hcell hval hn')⟩

theorem isValid_of_completes {g s : Grid} {r c v : Nat} (hr : r < 9)
    (hc : c < 9) (hcell : getCell g r c = none) (hs : completes s g)
    (hv : getCell s r c = some v) : isValid g r c v = true := by
  obtain ⟨hsg, hsfull, hsdig, hsnd, hssub⟩ := hs
  rw [isValid_iff_unit hr hc]
  intro r' hr' c' hc' hunit hcon
  have hs' := hssub r' hr' c' hc' v hcon
  have hne : (r, c) ≠ (r', c') := by
    intro heq
    have h1 : r = r' := congrArg Prod.fst heq
    have h2 : c = c' := congrArg Prod.snd heq
    rw [← h1, ← h2] at hcon
    rw [hcon] at hcell
    exact absurd hcell (by simp)
  exact hsnd r hr c hc r' hr' c' hc' hne hunit v hv hs'

theorem completes_setCell {g s : Grid} {r c v : Nat} (hg : isGrid g)
    (hr : r < 9) (hc : c < 9) (hs : completes s g)
    (hv : getCell s r c = some v) : completes s (setCell g r c (some v)) := by
  obtain ⟨hsg, hsfull, hsdig, hsnd, hssub⟩ := hs
  refine ⟨hsg, hsfull, hsdig, hsnd, ?_⟩
  intro r' hr' c' hc' w hw
  by_cases hne : r' ≠ r ∨ c' ≠ c
  · rw [getCell_setCell_ne _ _ hne] at hw
    exact hssub r' hr' c' hc' w hw
  · push_neg at hne
    obtain ⟨rfl, rfl⟩ := hne
    rw [getCell_setCell_self hg hr hc] at hw
    have : v = w := by simpa using hw
    rw [← this]
    exact hv

theorem eq_of_completes_of_full {g s : Grid} (hg : isGrid g) (hfull : full g)
    (hs : completes s g) : s = g := by
  obtain ⟨hsg, hsfull, hsdig, hsnd, hssub⟩ := hs
  refine grid_ext hsg hg ?_
  intro r hr c hc
  cases hcase : getCell g r c with
  | none => exact absurd hcase (hfull r hr c hc)
  | some v => exact hssub r hr c hc v hcase

theorem solsFuel_complete : ∀ {f : Nat} {g s : Grid}, isGrid g →
    emptyCount g ≤ f → completes s g → s ∈ solsFuel f g := by
  intro f
  induction f with
  | zero =>
    intro g s hg hfuel hs
    have hfull : full g := (emptyCount_eq_zero_iff g).1 (by omega)
    have hfe := findEmpty_none_of_full hfull
    have : solsFuel 0 g = [g] := by simp [solsFuel, hfe]
    rw [this]
    simp [eq_of_completes_of_full hg hfull hs]
  | succ f ih =>
    intro g s hg hfuel hs
    cases hfe : findEmpty g with
    | none =>
      have hfull := (findEmpty_eq_none_iff g).1 hfe
      have : solsFuel (f + 1) g = [g] := by simp [solsFuel, hfe]
      rw [this]
      simp [eq_of_completes_of_full hg hfull hs]
    | some rc =>
      obtain ⟨r, c⟩ := rc
      obtain ⟨hr, hc, hcell, -⟩ := findEmpty_eq_some hfe
      obtain ⟨v, hv⟩ : ∃ v, getCell s r c = some v := by
        cases hcase : getCell s r c with
        | none => exact absurd hcase (hs.2.1 r hr c hc)
        | some v => exact ⟨v, rfl⟩
      have hv19 := hs.2.2.1 r hr c hc v hv
      have hval := isValid_of_completes hr hc hcell hs hv
      have hec : emptyCount (setCell g r c (some v)) ≤ f := by
        have := emptyCount_setCell_some hg hr hc hcell v
        omega
      have hmem' := ih (isGrid_setCell hg r c _) hec (completes_setCell hg hr hc hs hv)
      have huf : solsFuel (f + 1) g =
          solsNums (fun g1 => solsFuel f g1) g r c (List.range' 1 9) := by
        simp [solsFuel, hfe]
      rw [huf]
      exact solsNums_mem.2 ⟨v, mem_range19.2 ⟨hv19.1, hv19.2⟩, hval, hmem'⟩

theorem solsNums_nodup {sols : Grid → List Grid} {g : Grid} {r c : Nat}
    {ns : List Nat}
    (hnd : ∀ n ∈ ns, (sols (setCell g r c (some n))).Nodup)
    (hval : ∀ n ∈ ns, ∀ s ∈ sols (setCell g r c (some n)), getCell s r c = some n)
    (hnsnd : ns.Nodup) : (solsNums sols g r c ns).Nodup := by
  induction ns with
  | nil => simp [solsNums]
  | cons n ns ih =>
    have hns := (List.nodup_cons.1 hnsnd)
    refine List.Nodup.append ?_ ?_ ?_
    · by_cases hv : isValid g r c n = true
      · rw [if_pos hv]
        exact hnd n (List.mem_cons_self _ _)
      · rw [if_neg hv]
        exact List.nodup_nil
    · exact ih (fun m hm => hnd m (List.mem_cons_of_mem _ hm))
        (fun m hm => hval m (List.mem_cons_of_mem _ hm)) hns.2
    · intro s hs1 hs2
      by_cases hv : isValid g r c n = true
      · rw [if_pos hv] at hs1
        obtain ⟨m, hm, hmval, hmmem⟩ := solsNums_mem.1 hs2
        have h1 := hval n (List.mem_cons_self _ _) s hs1
        have h2 := hval m (List.mem_cons_of_mem _ hm) s hmmem
        rw [h1] at h2
        have : n = m := by simpa using h2
        exact hns.1 (this ▸ hm)
      · rw [if_neg hv] at hs1
        exact absurd hs1 (by simp)

theorem solsFuel_nodup : ∀ {f : Nat} {g : Grid}, isGrid g →
    (solsFuel f g).Nodup := by
  intro f
  induction f with
  | zero =>
    intro g hg
    cases hfe : findEmpty g with
    | none => simp [solsFuel, hfe]
    | some rc => simp [solsFuel, hfe]
  | succ f ih =>
    intro g hg
    cases hfe : findEmpty g with
    | none => simp [solsFuel, hfe]
    | some rc =>
      obtain ⟨r, c⟩ := rc
      obtain ⟨hr, hc, hcell, -⟩ := findEmpty_eq_some hfe
      have huf : solsFuel (f + 1) g =
          solsNums (fun g1 => solsFuel f g1) g r c (List.range' 1 9) := by
        simp [solsFuel, hfe]
      rw [huf]
      refine solsNums_nodup ?_ ?_ ?_
      · intro n _
        exact ih (isGrid_setCell hg r c _)
      · intro n _ s hsmem
        have hsub := (solsFuel_mem_props hsmem).1
        exact hsub r hr c hc n (getCell_setCell_self hg hr hc _)
      · exact List.nodup_range' _ _

/-! ### The solution counter -/

theorem countNums_snd {cnt : Grid → Nat → Nat × Grid} {g : Grid} {r c : Nat}
    {ns : List Nat} {count : Nat}
    (hrest : ∀ g' k, (cnt g' k).2 = g')
    (hcell : getCell g r c = none) :
    (countNums cnt g r c ns count).2 = g := by
  induction ns generalizing count with
  | nil => rfl
  | cons n ns ih =>
    by_cases hval : isValid g r c n = true
    · rcases hcnt : cnt (setCell g r c (some n)) count with ⟨count1, g1⟩
      have hg1 : g1 = setCell g r c (some n) := by
        have := hrest (setCell g r c (some n)) count
        rw [hcnt] at this
        exact this
      have hback : setCell g1 r c none = g := by
        rw [hg1, setCell_setCell]
        exact setCell_getCell_eq g r c hcell
      simp only [countNums, if_pos hval, hcnt, hback]
      by_cases hgt : 1 < count1
      · rw [if_pos hgt]
      · rw [if_neg hgt]
        exact ih
    · simp only [countNums, if_neg hval]
      exact ih

theorem countFuel_snd : ∀ {f : Nat} {g : Grid} {count : Nat},
    (countFuel f g count).2 = g := by
  intro f
  induction f with
  | zero =>
    intro g count
    cases hfe : findEmpty g <;> simp [countFuel, hfe]
  | succ f ih =>
    intro g count
    cases hfe : findEmpty g with
    | none => simp [countFuel, hfe]
    | some rc =>
      obtain ⟨r, c⟩ := rc
      have hcell := (findEmpty_eq_some hfe).2.2.1
      have huf : countFuel (f + 1) g count =
          countNums (fun g1 k => countFuel f g1 k) g r c (List.range' 1 9) count := by
        simp [countFuel, hfe]
      rw [huf]
      exact countNums_snd (fun g' k => ih) hcell

theorem countSolutions_snd (g : Grid) : (countSolutions g).2 = g :=
  countFuel_snd

theorem countNums_eq {cnt : Grid → Nat → Nat × Grid} {sols : Grid → List Grid}
    {g : Grid} {r c : Nat} {ns : List Nat} {count : Nat}
    (hrest : ∀ g' k, (cnt g' k).2 = g')
    (hagree : ∀ g' k, k ≤ 1 → (cnt g' k).1 = min (k + (sols g').length) 2)
    (hcell : getCell g r c = none) (hcount : count ≤ 1) :
    (countNums cnt g r c ns count).1 =
      min (count + (solsNums sols g r c ns).length) 2 := by
  induction ns generalizing count with
  | nil =>
    show count = min (count + 0) 2
    omega
  | cons n ns ih =>
    by_cases hval : isValid g r c n = true
    · rcases hcnt : cnt (setCell g r c (some n)) count with ⟨count1, g1⟩
      have hg1 : g1 = setCell g r c (some n) := by
        have := hrest (setCell g r c (some n)) count
        rw [hcnt] at this
        exact this
      have hback : setCell g1 r c none = g := by
        rw [hg1, setCell_setCell]
        exact setCell_getCell_eq g r c hcell
      have hc1 : count1 = min (count + (sols (setCell g r c (some n))).length) 2 := by
        have := hagree (setCell g r c (some n)) count hcount
        rw [hcnt] at this
        exact this
      have hlen : (solsNums sols g r c (n :: ns)).length =
          (sols (setCell g r c (some n))).length + (solsNums sols g r c ns).length := by
        simp [solsNums, if_pos hval]
      simp only [countNums, if_pos hval, hcnt, hback]
      by_cases hgt : 1 < count1
      · rw [if_pos hgt]
        omega
      · rw [if_neg hgt]
        have := ih (show count1 ≤ 1 by omega)
        omega
    · have hlen : (solsNums sols g r c (n :: ns)).length =
          (solsNums sols g r c ns).length := by
        simp [solsNums, if_neg hval]
      simp only [countNums, if_neg hval]
      rw [ih hcount, hlen]

theorem countFuel_eq : ∀ {f : Nat} {g : Grid} {count : Nat}, count ≤ 1 →
    (countFuel f g count).1 = min (count + (solsFuel f g).length) 2 := by
  intro f
  induction f with
  | zero =>
    intro g count hcount
    cases hfe : findEmpty g with
    | none =>
      have h1 : countFuel 0 g count = (count + 1, g) := by simp [countFuel, hfe]
      have h2 : solsFuel 0 g = [g] := by simp [solsFuel, hfe]
      rw [h1, h2]
      show count + 1 = min (count + 1) 2
      omega
    | some rc =>
      have h1 : countFuel 0 g count = (count, g) := by simp [countFuel, hfe]
      have h2 : solsFuel 0 g = [] := by simp [solsFuel, hfe]
      rw [h1, h2]
      show count = min (count + 0) 2
      omega
  | succ f ih =>
    intro g count hcount
    cases hfe : findEmpty g with
    | none =>
      have h1 : countFuel (f + 1) g count = (count + 1, g) := by simp [countFuel, hfe]
      have h2 : solsFuel (f + 1) g = [g] := by simp [solsFuel, hfe]
      rw [h1, h2]
      show count + 1 = min (count + 1) 2
      omega
    | some rc =>
      obtain ⟨r, c⟩ := rc
      have hcell := (findEmpty_eq_some hfe).2.2.1
      have h1 : countFuel (f + 1) g count =
          countNums (fun g1 k => countFuel f g1 k) g r c (List.range' 1 9) count := by
        simp [countFuel, hfe]
      have h2 : solsFuel (f + 1) g =
          solsNums (fun g1 => solsFuel f g1) g r c (List.range' 1 9) := by
        simp [solsFuel, hfe]
      rw [h1, h2]
      exact countNums_eq (fun g' k => countFuel_snd) (fun g' k hk => ih hk)
        hcell hcount

theorem countSolutions_eq (g : Grid) :
    (countSolutions g).1 = min (solsFuel 81 g).length 2 := by
  have := @countFuel_eq 81 g 0 (by omega)
  simpa [countSolutions] using this

theorem countSolutions_spec {g : Grid} (hg : isGrid g) (hd : digitsOk g)
    (hn : noDupes g) :
    ((countSolutions g).1 = 0 ↔ ¬ ∃ s, completes s g) ∧
    ((countSolutions g).1 = 1 ↔ ∃! s, completes s g) ∧
    ((countSolutions g).1 = 2 ↔ ∃ s1 s2, s1 ≠ s2 ∧ completes s1 g ∧ completes s2 g) ∧
    (countSolutions g).1 ≤ 2 := by
  have hmem : ∀ s, s ∈ solsFuel 81 g ↔ completes s g := by
    intro s
    constructor
    · intro hsmem
      obtain ⟨hsub, hfull, hrest⟩ := solsFuel_mem_props hsmem
      obtain ⟨hgo, hdo, hno⟩ := hrest hg
      exact ⟨hgo, hfull, hdo hd, hno hd hn, hsub⟩
    · intro hs
      exact solsFuel_complete hg (emptyCount_le g) hs
  have hnd := @solsFuel_nodup 81 g hg
  have hcount := countSolutions_eq g
  set K := solsFuel 81 g with hK
  refine ⟨?_, ?_, ?_, by omega⟩
  · constructor
    · intro h0
      have hlen : K.length = 0 := by omega
      rintro ⟨s, hs⟩
      have := (hmem s).2 hs
      rw [List.length_eq_zero] at hlen
      rw [hlen] at this
      exact absurd this (by simp)
    · intro hno
      have hlen : K.length = 0 := by
        by_contra hcon
        have hpos : 0 < K.length := by omega
        obtain ⟨s, hsmem⟩ := List.exists_mem_of_length_pos hpos
        exact hno ⟨s, (hmem s).1 hsmem⟩
      omega
  · constructor
    · intro h1
      have hlen : K.length = 1 := by omega
      obtain ⟨s0, hs0⟩ := List.length_eq_one.1 hlen
      refine ⟨s0, (hmem s0).1 (by rw [hs0]; simp), ?_⟩
      intro s' hs'
      have := (hmem s').2 hs'
      rw [hs0] at this
      simpa using this
    · rintro ⟨s0, hs0, huniq⟩
      have hmem0 : s0 ∈ K := (hmem s0).2 hs0
      have hlen : K.length = 1 := by
        rcases hKc : K with _ | ⟨a, t⟩
        · rw [hKc] at hmem0
          exact absurd hmem0 (by simp)
        · rcases htc : t with _ | ⟨b, t2⟩
          · simp
          · exfalso
            rw [hKc, htc] at hnd
            have hab : a ≠ b := by
              have := List.nodup_cons.1 hnd
              exact fun h => this.1 (h ▸ List.mem_cons_self _ _)
            have ha : a ∈ K := by rw [hKc]; simp
            have hb : b ∈ K := by rw [hKc, htc]; simp
            have ha' := huniq a ((hmem a).1 ha)
            have hb' := huniq b ((hmem b).1 hb)
            exact hab (ha'.trans hb'.symm)
      omega
  · constructor
    · intro h2
      have hlen : 2 ≤ K.length := by omega
      rcases hKc : K with _ | ⟨a, t⟩
      · rw [hKc] at hlen
        simp at hlen
      · rcases htc : t with _ | ⟨b, t2⟩
        · rw [hKc, htc] at hlen
          simp at hlen
        · have ha : a ∈ K := by rw [hKc]; simp
          have hb : b ∈ K := by rw [hKc, htc]; simp
          have hab : a ≠ b := by
            rw [hKc, htc] at hnd
            have := List.nodup_cons.1 hnd
            exact fun h => this.1 (h ▸ List.mem_cons_self _ _)
          exact ⟨a, b, hab, (hmem a).1 ha, (hmem b).1 hb⟩
    · rintro ⟨s1, s2, hne, hs1, hs2⟩
      have hm1 : s1 ∈ K := (hmem s1).2 hs1
      have hm2 : s2 ∈ K := (hmem s2).2 hs2
      have hlen : 2 ≤ K.length := by
        have h2 : s2 ∈ K.erase s1 := (List.mem_erase_of_ne (Ne.symm hne)).2 hm2
        have hlen1 : (K.erase s1).length = K.length - 1 :=
          List.length_erase_of_mem hm1
        have hpos : 0 < (K.erase s1).length :=
          List.length_pos.2 (List.ne_nil_of_mem h2)
        have hpos2 : 0 < K.length := List.length_pos.2 (List.ne_nil_of_mem hm1)
        omega
      omega

/-! ### Rows, columns and boxes of a full valid grid are permutations of 1-9 -/

theorem perm_digits {l : List Nat} (hnd : l.Nodup)
    (hsub : ∀ x ∈ l, 1 ≤ x ∧ x ≤ 9) (hlen : l.length = 9) :
    l.Perm (List.range' 1 9) := by
  have hnd9 : (List.range' 1 9).Nodup := List.nodup_range' _ _
  rw [List.perm_ext_iff_of_nodup hnd hnd9]
  have hsubset : l.toFinset ⊆ (List.range' 1 9).toFinset := by
    intro x hx
    rw [List.mem_toFinset] at hx ⊢
    exact mem_range19.2 (hsub x hx)
  have hcard : (List.range' 1 9).toFinset.card ≤ l.toFinset.card := by
    rw [List.toFinset_card_of_nodup hnd, List.toFinset_card_of_nodup hnd9]
    simp [hlen]
  have heq : l.toFinset = (List.range' 1 9).toFinset :=
    Finset.eq_of_subset_of_card_le hsubset hcard
  intro a
  have h1 : a ∈ l.toFinset ↔ a ∈ (List.range' 1 9).toFinset := by rw [heq]
  simpa [List.mem_toFinset] using h1

theorem getD_eq_of_full {g : Grid} (hfull : full g) {r c : Nat} (hr : r < 9)
    (hc : c < 9) : ∃ v, getCell g r c = some v ∧ (getCell g r c).getD 0 = v := by
  cases hcase : getCell g r c with
  | none => exact absurd hcase (hfull r hr c hc)
  | some v => exact ⟨v, rfl, rfl⟩

theorem rowVals_perm {g : Grid} (hfull : full g) (hd : digitsOk g)
    (hn : noDupes g) {r : Nat} (hr : r < 9) :
    (rowVals g r).Perm (List.range' 1 9) := by
  apply perm_digits
  · apply List.Nodup.map_on ?_ (List.nodup_range _)
    intro c1 hc1 c2 hc2 heq
    rw [List.mem_range] at hc1 hc2
    by_contra hne
    obtain ⟨v1, hv1, he1⟩ := getD_eq_of_full hfull hr hc1
    obtain ⟨v2, hv2, he2⟩ := getD_eq_of_full hfull hr hc2
    rw [he1, he2] at heq
    subst heq
    exact hn r hr c1 hc1 r hr c2 hc2 (by simp [hne]) (Or.inl rfl) v1 hv1 hv2
  · intro x hx
    rw [rowVals, List.mem_map] at hx
    obtain ⟨c, hc, hcx⟩ := hx
    rw [List.mem_range] at hc
    obtain ⟨v, hv, he⟩ := getD_eq_of_full hfull hr hc
    rw [he] at hcx
    subst hcx
    exact hd r hr c hc v hv
  · simp [rowVals]

theorem colVals_perm {g : Grid} (hfull : full g) (hd : digitsOk g)
    (hn : noDupes g) {c : Nat} (hc : c < 9) :
    (colVals g c).Perm (List.range' 1 9) := by
  apply perm_digits
  · apply List.Nodup.map_on ?_ (List.nodup_range _)
    intro r1 hr1 r2 hr2 heq
    rw [List.mem_range] at hr1 hr2
    by_contra hne
    obtain ⟨v1, hv1, he1⟩ := getD_eq_of_full hfull hr1 hc
    obtain ⟨v2, hv2, he2⟩ := getD_eq_of_full hfull hr2 hc
    rw [he1, he2] at heq
    subst heq
    exact hn r1 hr1 c hc r2 hr2 c hc (by simp [hne]) (Or.inr (Or.inl rfl)) v1 hv1 hv2
  · intro x hx
    rw [colVals, List.mem_map] at hx
    obtain ⟨r, hrm, hrx⟩ := hx
    rw [List.mem_range] at hrm
    obtain ⟨v, hv, he⟩ := getD_eq_of_full hfull hrm hc
    rw [he] at hrx
    subst hrx
    exact hd r hrm c hc v hv
  · simp [colVals]

theorem boxVals_perm {g : Grid} (hfull : full g) (hd : digitsOk g)
    (hn : noDupes g) {b : Nat} (hb : b < 9) :
    (boxVals g b).Perm (List.range' 1 9) := by
  have hrow : ∀ t, t < 9 → 3 * (b / 3) + t / 3 < 9 := by omega
  have hcol : ∀ t, t < 9 → 3 * (b % 3) + t % 3 < 9 := by omega
  apply perm_digits
  · apply List.Nodup.map_on ?_ (List.nodup_range _)
    intro t1 ht1 t2 ht2 heq
    rw [List.mem_range] at ht1 ht2
    by_contra hne
    obtain ⟨v1, hv1, he1⟩ := getD_eq_of_full hfull (hrow t1 ht1) (hcol t1 ht1)
    obtain ⟨v2, hv2, he2⟩ := getD_eq_of_full hfull (hrow t2 ht2) (hcol t2 ht2)
    rw [he1, he2] at heq
    subst heq
    have hcellne : (3 * (b / 3) + t1 / 3, 3 * (b % 3) + t1 % 3) ≠
        (3 * (b / 3) + t2 / 3, 3 * (b % 3) + t2 % 3) := by
      intro hcon
      have h1 : 3 * (b / 3) + t1 / 3 = 3 * (b / 3) + t2 / 3 :=
        congrArg Prod.fst hcon
      have h2 : 3 * (b % 3) + t1 % 3 = 3 * (b % 3) + t2 % 3 :=
        congrArg Prod.snd hcon
      omega
    have hsameb : sameUnit (3 * (b / 3) + t1 / 3) (3 * (b % 3) + t1 % 3)
        (3 * (b / 3) + t2 / 3) (3 * (b % 3) + t2 % 3) := by
      right; right
      constructor <;> omega
    exact hn _ (hrow t1 ht1) _ (hcol t1 ht1) _ (hrow t2 ht2) _ (hcol t2 ht2)
      hcellne hsameb v1 hv1 hv2
  · intro x hx
    rw [boxVals, List.mem_map] at hx
    obtain ⟨t, ht, htx⟩ := hx
    rw [List.mem_range] at ht
    obtain ⟨v, hv, he⟩ := getD_eq_of_full hfull (hrow t ht) (hcol t ht)
    rw [he] at htx
    subst htx
    exact hd _ (hrow t ht) _ (hcol t ht) v hv
  · simp [boxVals]

/-! ### The generator: seeding -/

theorem filledCount_setCell_some {g : Grid} (hg : isGrid g) {r c : Nat}
    (hr : r < 9) (hc : c < 9) (hnone : getCell g r c = none) (v : Nat) :
    filledCount (setCell g r c (some v)) = filledCount g + 1 := by
  unfold filledCount
  refine countP_update allCells_nodup (mem_allCells.2 ⟨hr, hc⟩) ?_ ?_ ?_
  · intro x _ hx
    have hne : x.1 ≠ r ∨ x.2 ≠ c := by
      by_contra hcon
      push_neg at hcon
      exact hx (by rw [← hcon.1, ← hcon.2])
    simp [getCell_setCell_ne _ _ hne]
  · simp [getCell_setCell_self hg hr hc]
  · simp [hnone]

theorem drawCell_eq_some {rng : Nat → Nat} : ∀ {fuel k : Nat} {g : Grid}
    {r c : Nat} {g' : Grid} {k' : Nat},
    drawCell rng g r c k fuel = some (g', k') →
    ∃ num, 1 ≤ num ∧ num ≤ 9 ∧ isValid g r c num = true ∧
      g' = setCell g r c (some num) := by
  intro fuel
  induction fuel with
  | zero => intro k g r c g' k' h; exact absurd h (by simp [drawCell])
  | succ fuel ih =>
    intro k g r c g' k' h
    by_cases hval : isValid g r c (rng k % 9 + 1) = true
    · simp only [drawCell, if_pos hval] at h
      obtain ⟨hg, -⟩ : setCell g r c (some (rng k % 9 + 1)) = g' ∧ k + 1 = k' := by
        have := Option.some.inj h
        exact ⟨congrArg Prod.fst this, congrArg Prod.snd this⟩
      refine ⟨rng k % 9 + 1, by omega, by omega, hval, hg.symm⟩
    · simp only [drawCell, if_neg hval] at h
      exact ih h

theorem seedBoxes_props {rng : Nat → Nat} : ∀ {ps : List (Nat × Nat)}
    {g : Grid} {k fuel : Nat} {g' : Grid} {k' : Nat},
    seedBoxes rng ps g k fuel = some (g', k') →
    isGrid g → digitsOk g → noDupes g →
    (∀ q ∈ ps, q.1 < 9 ∧ q.2 < 9 ∧ getCell g q.1 q.2 = none) →
    ps.Nodup →
    isGrid g' ∧ digitsOk g' ∧ noDupes g' ∧
      filledCount g' = filledCount g + ps.length := by
  intro ps
  induction ps with
  | nil =>
    intro g k fuel g' k' h hg hd hn _ _
    obtain ⟨hgg, -⟩ : g = g' ∧ k = k' := by
      simp only [seedBoxes] at h
      have := Option.some.inj h
      exact ⟨congrArg Prod.fst this, congrArg Prod.snd this⟩
    subst hgg
    exact ⟨hg, hd, hn, by simp⟩
  | cons q ps ih =>
    intro g k fuel g' k' h hg hd hn hpos hnd
    obtain ⟨hq1, hq2, hqcell⟩ := hpos q (List.mem_cons_self _ _)
    cases hdraw : drawCell rng g q.1 q.2 k fuel with
    | none => rw [seedBoxes, hdraw] at h; exact absurd h (by simp)
    | some gk =>
      obtain ⟨g1, k1⟩ := gk
      rw [seedBoxes, hdraw] at h
      replace h : seedBoxes rng ps g1 k1 fuel = some (g', k') := h
      obtain ⟨num, hn1, hn9, hval, hg1⟩ := drawCell_eq_some hdraw
      subst hg1
      have hnodup := List.nodup_cons.1 hnd
      have hg1g : isGrid (setCell g q.1 q.2 (some num)) := isGrid_setCell hg _ _ _
      refine ?_
      have hres := ih h hg1g
        (digitsOk_setCell hg hq1 hq2 hn1 hn9 hd)
        (noDupes_setCell hg hq1 hq2 hqcell hval hn)
        ?_ hnodup.2
      · obtain ⟨ha, hb, hc, hcount⟩ := hres
        refine ⟨ha, hb, hc, ?_⟩
        rw [hcount, filledCount_setCell_some hg hq1 hq2 hqcell num]
        simp only [List.length_cons]
        omega
      · intro q' hq'
        obtain ⟨h1, h2, h3⟩ := hpos q' (List.mem_cons_of_mem _ hq')
        refine ⟨h1, h2, ?_⟩
        have hne : q'.1 ≠ q.1 ∨ q'.2 ≠ q.2 := by
          by_contra hcon
          push_neg at hcon
          exact hnodup.1 (by
            have : q' = q := by
              obtain ⟨a, b⟩ := q'
              obtain ⟨a', b'⟩ := q
              simp only at hcon
              rw [hcon.1, hcon.2]
            exact this ▸ hq')
        rw [getCell_setCell_ne _ _ hne]
        exact h3

/-! ### The generator: the removal loop -/

theorem removeLoop_zero_unfold (rng : Nat → Nat) (k attempts target : Nat)
    (p : Grid) :
    removeLoop rng k attempts target p 0 =
      if target ≤ attempts then some (p, k) else none := rfl

theorem removeLoop_succ_unfold (rng : Nat → Nat) (k attempts target : Nat)
    (p : Grid) (fuel : Nat) :
    removeLoop rng k attempts target p (fuel + 1) =
      if target ≤ attempts then some (p, k)
      else
        match getCell p (rng k % 9) (rng (k + 1) % 9) with
        | some temp =>
          if (countSolutions (setCell p (rng k % 9) (rng (k + 1) % 9) none)).1 ≠ 1 then
            removeLoop rng (k + 2) attempts target
              (setCell (setCell p (rng k % 9) (rng (k + 1) % 9) none)
                (rng k % 9) (rng (k + 1) % 9) (some temp)) fuel
          else
            removeLoop rng (k + 2) (attempts + 1) target
              (setCell p (rng k % 9) (rng (k + 1) % 9) none) fuel
        | none => removeLoop rng (k + 2) attempts target p fuel := rfl

theorem removeLoop_exit {rng : Nat → Nat} {k attempts target : Nat} {p : Grid}
    {fuel : Nat} (hta : target ≤ attempts) :
    removeLoop rng k attempts target p fuel = some (p, k) := by
  cases fuel with
  | zero => rw [removeLoop_zero_unfold, if_pos hta]
  | succ f => rw [removeLoop_succ_unfold, if_pos hta]

theorem removeLoop_succ_none {rng : Nat → Nat} {k attempts target : Nat}
    {p : Grid} {fuel : Nat} (hta : ¬ target ≤ attempts)
    (hcell : getCell p (rng k % 9) (rng (k + 1) % 9) = none) :
    removeLoop rng k attempts target p (fuel + 1) =
      removeLoop rng (k + 2) attempts target p fuel := by
  rw [removeLoop_succ_unfold, if_neg hta, hcell]

theorem removeLoop_succ_some {rng : Nat → Nat} {k attempts target : Nat}
    {p : Grid} {fuel temp : Nat} (hta : ¬ target ≤ attempts)
    (hcell : getCell p (rng k % 9) (rng (k + 1) % 9) = some temp) :
    removeLoop rng k attempts target p (fuel + 1) =
      if (countSolutions (setCell p (rng k % 9) (rng (k + 1) % 9) none)).1 ≠ 1 then
        removeLoop rng (k + 2) attempts target
          (setCell (setCell p (rng k % 9) (rng (k + 1) % 9) none)
            (rng k % 9) (rng (k + 1) % 9) (some temp)) fuel
      else
        removeLoop rng (k + 2) (attempts + 1) target
          (setCell p (rng k % 9) (rng (k + 1) % 9) none) fuel := by
  rw [removeLoop_succ_unfold, if_neg hta, hcell]

theorem removeLoop_props {rng : Nat → Nat} {sol : Grid} {target F : Nat} :
    ∀ {fuel k attempts : Nat} {p p' : Grid} {k' : Nat},
    removeLoop rng k attempts target p fuel = some (p', k') →
    isGrid p → subgrid p sol → attempts ≤ target →
    filledCount p + attempts = F →
    (1 ≤ attempts → (countSolutions p).1 = 1) →
    isGrid p' ∧ subgrid p' sol ∧ filledCount p' + target = F ∧
      (1 ≤ target → (countSolutions p').1 = 1) := by
  intro fuel
  induction fuel with
  | zero =>
    intro k attempts p p' k' h hg hsub hat hfc hcount
    rw [removeLoop_zero_unfold] at h
    by_cases hta : target ≤ attempts
    · rw [if_pos hta] at h
      obtain ⟨hp, -⟩ : p = p' ∧ k = k' := by
        have := Option.some.inj h
        exact ⟨congrArg Prod.fst this, congrArg Prod.snd this⟩
      subst hp
      exact ⟨hg, hsub, by omega, fun h1 => hcount (by omega)⟩
    · rw [if_neg hta] at h
      exact absurd h (by simp)
  | succ fuel ih =>
    intro k attempts p p' k' h hg hsub hat hfc hcount
    by_cases hta : target ≤ attempts
    · rw [removeLoop_exit hta] at h
      obtain ⟨hp, -⟩ : p = p' ∧ k = k' := by
        have := Option.some.inj h
        exact ⟨congrArg Prod.fst this, congrArg Prod.snd this⟩
      subst hp
      exact ⟨hg, hsub, by omega, fun h1 => hcount (by omega)⟩
    · have hr : rng k % 9 < 9 := Nat.mod_lt _ (by omega)
      have hc : rng (k + 1) % 9 < 9 := Nat.mod_lt _ (by omega)
      cases hcell : getCell p (rng k % 9) (rng (k + 1) % 9) with
      | none =>
        rw [removeLoop_succ_none hta hcell] at h
        exact ih h hg hsub hat hfc hcount
      | some temp =>
        rw [removeLoop_succ_some hta hcell] at h
        by_cases hcnt :
            (countSolutions (setCell p (rng k % 9) (rng (k + 1) % 9) none)).1 ≠ 1
        · rw [if_pos hcnt] at h
          have hrestore : setCell (setCell p (rng k % 9) (rng (k + 1) % 9) none)
              (rng k % 9) (rng (k + 1) % 9) (some temp) = p := by
            rw [setCell_setCell]
            exact setCell_getCell_eq _ _ _ hcell
          rw [hrestore] at h
          exact ih h hg hsub hat hfc hcount
        · rw [if_neg hcnt] at h
          push_neg at hcnt
          have hg1 : isGrid (setCell p (rng k % 9) (rng (k + 1) % 9) none) :=
            isGrid_setCell hg _ _ _
          have hsub1 : subgrid (setCell p (rng k % 9) (rng (k + 1) % 9) none) sol := by
            intro r' hr' c' hc' v hv
            by_cases hne : r' ≠ rng k % 9 ∨ c' ≠ rng (k + 1) % 9
            · rw [getCell_setCell_ne _ _ hne] at hv
              exact hsub r' hr' c' hc' v hv
            · push_neg at hne
              obtain ⟨rfl, rfl⟩ := hne
              rw [getCell_setCell_self hg hr hc] at hv
              exact absurd hv (by simp)
          have hfc1 : filledCount (setCell p (rng k % 9) (rng (k + 1) % 9) none) +
              (attempts + 1) = F := by
            have := filledCount_setCell_none hg hr hc hcell
            omega
          exact ih h hg1 hsub1 (by omega) hfc1 (fun _ => hcnt)

theorem removeLoop_subgrid {rng : Nat → Nat} {sol : Grid} {target : Nat} :
    ∀ {fuel k attempts : Nat} {p p' : Grid} {k' : Nat},
    removeLoop rng k attempts target p fuel = some (p', k') →
    isGrid p → subgrid p sol →
    subgrid p' sol := by
  intro fuel
  induction fuel with
  | zero =>
    intro k attempts p p' k' h hg hsub
    rw [removeLoop_zero_unfold] at h
    by_cases hta : target ≤ attempts
    · rw [if_pos hta] at h
      have hp : p = p' := congrArg Prod.fst (Option.some.inj h)
      exact hp ▸ hsub
    · rw [if_neg hta] at h
      exact absurd h (by simp)
  | succ fuel ih =>
    intro k attempts p p' k' h hg hsub
    by_cases hta : target ≤ attempts
    · rw [removeLoop_exit hta] at h
      have hp : p = p' := congrArg Prod.fst (Option.some.inj h)
      exact hp ▸ hsub
    · have hr : rng k % 9 < 9 := Nat.mod_lt _ (by omega)
      have hc : rng (k + 1) % 9 < 9 := Nat.mod_lt _ (by omega)
      cases hcell : getCell p (rng k % 9) (rng (k + 1) % 9) with
      | none =>
        rw [removeLoop_succ_none hta hcell] at h
        exact ih h hg hsub
      | some temp =>
        rw [removeLoop_succ_some hta hcell] at h
        by_cases hcnt :
            (countSolutions (setCell p (rng k % 9) (rng (k + 1) % 9) none)).1 ≠ 1
        · rw [if_pos hcnt] at h
          have hrestore : setCell (setCell p (rng k % 9) (rng (k + 1) % 9) none)
              (rng k % 9) (rng (k + 1) % 9) (some temp) = p := by
            rw [setCell_setCell]
            exact setCell_getCell_eq _ _ _ hcell
          rw [hrestore] at h
          exact ih h hg hsub
        · rw [if_neg hcnt] at h
          have hg1 : isGrid (setCell p (rng k % 9) (rng (k + 1) % 9) none) :=
            isGrid_setCell hg _ _ _
          have hsub1 : subgrid (setCell p (rng k % 9) (rng (k + 1) % 9) none) sol := by
            intro r' hr' c' hc' v hv
            by_cases hne : r' ≠ rng k % 9 ∨ c' ≠ rng (k + 1) % 9
            · rw [getCell_setCell_ne _ _ hne] at hv
              exact hsub r' hr' c' hc' v hv
            · push_neg at hne
              obtain ⟨rfl, rfl⟩ := hne
              rw [getCell_setCell_self hg hr hc] at hv
              exact absurd hv (by simp)
          exact ih h hg1 hsub1

/-! ### The generator: end to end -/

theorem generateSudoku_eq_some {rng : Nat → Nat} {d : Difficulty}
    {fuel : Nat} {p s : Grid}
    (h : generateSudoku rng d fuel = some (p, s)) :
    ∃ gseed k1 k2,
      seedBoxes rng seedPositions emptyGrid 0 fuel = some (gseed, k1) ∧
      s = (solveSudoku gseed).2 ∧
      removeLoop rng k1 0 (cellsToRemoveOf d) ((solveSudoku gseed).2) fuel =
        some (p, k2) := by
  unfold generateSudoku at h
  cases hseed : seedBoxes rng seedPositions emptyGrid 0 fuel with
  | none => rw [hseed] at h; exact absurd h (by simp)
  | some gk =>
    obtain ⟨gseed, k1⟩ := gk
    rw [hseed] at h
    replace h : Option.map (fun pk : Grid × Nat => (pk.1, (solveSudoku gseed).2))
        (removeLoop rng k1 0 (cellsToRemoveOf d) ((solveSudoku gseed).2) fuel) =
        some (p, s) := h
    cases hrem : removeLoop rng k1 0 (cellsToRemoveOf d) ((solveSudoku gseed).2) fuel with
    | none => rw [hrem] at h; exact absurd h (by simp)
    | some pk =>
      obtain ⟨p0, k2⟩ := pk
      rw [hrem] at h
      replace h : (some (p0, (solveSudoku gseed).2) : Option (Grid × Grid)) =
          some (p, s) := h
      have hp : p0 = p := congrArg Prod.fst (Option.some.inj h)
      have hs : (solveSudoku gseed).2 = s := congrArg Prod.snd (Option.some.inj h)
      subst hp
      exact ⟨gseed, k1, k2, rfl, hs.symm, hrem⟩

theorem emptyGrid_facts :
    isGrid emptyGrid ∧ digitsOk emptyGrid ∧ noDupes emptyGrid ∧
      filledCount emptyGrid = 0 := by decide

theorem seedPositions_facts :
    (∀ q ∈ seedPositions, q.1 < 9 ∧ q.2 < 9 ∧ getCell emptyGrid q.1 q.2 = none) ∧
      seedPositions.Nodup ∧ seedPositions.length = 27 := by decide

theorem cellsToRemoveOf_ge (d : Difficulty) : 35 ≤ cellsToRemoveOf d := by
  cases d <;> simp [cellsToRemoveOf]

theorem generateSudoku_main {rng : Nat → Nat} {d : Difficulty} {fuel : Nat}
    {p s : Grid} (h : generateSudoku rng d fuel = some (p, s)) :
    isGrid s ∧ full s ∧ digitsOk s ∧ noDupes s ∧
    isGrid p ∧ subgrid p s ∧
    filledCount p + cellsToRemoveOf d = 81 ∧
    (countSolutions p).1 = 1 ∧
    (∃ gseed k1,
      seedBoxes rng seedPositions emptyGrid 0 fuel = some (gseed, k1) ∧
      (solveSudoku gseed).1 = true ∧ s = (solveSudoku gseed).2) := by
  obtain ⟨gseed, k1, k2, hseed, hs, hrem⟩ := generateSudoku_eq_some h
  obtain ⟨hEg, hEd, hEn, hEf⟩ := emptyGrid_facts
  obtain ⟨hPos, hPnd, hPlen⟩ := seedPositions_facts
  obtain ⟨hGg, hGd, hGn, hGf⟩ := seedBoxes_props hseed hEg hEd hEn hPos hPnd
  rw [hEf, hPlen] at hGf
  cases hsolve : (solveSudoku gseed).1 with
  | false =>
    exfalso
    have hboard : (solveSudoku gseed).2 = gseed := solveFuel_fst_false hsolve
    rw [hboard] at hrem
    obtain ⟨-, -, hfc, -⟩ := removeLoop_props hrem hGg (subgrid_refl _)
      (by omega) rfl (by omega)
    have h35 := cellsToRemoveOf_ge d
    omega
  | true =>
    obtain ⟨hfull, hsub, hrest⟩ := solveFuel_fst_true hsolve
    obtain ⟨hsg, hsd, hsn⟩ := hrest hGg
    have hsd' := hsd hGd
    have hsn' := hsn hGd hGn
    have hfcs : filledCount (solveSudoku gseed).2 = 81 := filledCount_eq_of_full hfull
    obtain ⟨hpg, hpsub, hpfc, hpcnt⟩ := removeLoop_props hrem hsg (subgrid_refl _)
      (by omega) rfl (by omega)
    have h35 := cellsToRemoveOf_ge d
    subst hs
    exact ⟨hsg, hfull, hsd', hsn', hpg, hpsub, by omega,
      hpcnt (by omega), gseed, k1, hseed, hsolve, rfl⟩

/-- One successful removal iteration, stated for rewriting with literal
values. -/
theorem removeLoop_step_success (r c temp : Nat) {rng : Nat → Nat}
    {k attempts target : Nat} {p p1 : Grid} {fuel : Nat}
    (hta : ¬ target ≤ attempts)
    (hr : rng k % 9 = r) (hc : rng (k + 1) % 9 = c)
    (hcell : getCell p r c = some temp)
    (hp1 : setCell p r c none = p1)
    (hcnt : (countSolutions p1).1 = 1) :
    removeLoop rng k attempts target p (fuel + 1) =
      removeLoop rng (k + 2) (attempts + 1) target p1 fuel := by
  subst hr
  subst hc
  subst hp1
  rw [removeLoop_succ_some hta hcell, if_neg (by simp [hcnt])]

/-! ### The generator run under rng0 -/

theorem seedBoxes_rng0 :
    seedBoxes rng0 seedPositions emptyGrid 0 100 = some (seedGrid, 27) := by
  decide

theorem solve_seedGrid : solveSudoku seedGrid = (true, solGrid) := by
  decide

theorem cnt_step1 : (countSolutions removalStep1).1 = 1 := by
  decide

theorem cnt_step2 : (countSolutions removalStep2).1 = 1 := by
  decide

theorem cnt_step3 : (countSolutions removalStep3).1 = 1 := by
  decide

theorem cnt_step4 : (countSolutions removalStep4).1 = 1 := by
  decide

theorem cnt_step5 : (countSolutions removalStep5).1 = 1 := by
  decide

theorem cnt_step6 : (countSolutions removalStep6).1 = 1 := by
  decide

theorem cnt_step7 : (countSolutions removalStep7).1 = 1 := by
  decide

theorem cnt_step8 : (countSolutions removalStep8).1 = 1 := by
  decide

theorem cnt_step9 : (countSolutions removalStep9).1 = 1 := by
  decide

theorem cnt_step10 : (countSolutions removalStep10).1 = 1 := by
  decide

theorem cnt_step11 : (countSolutions removalStep11).1 = 1 := by
  decide

theorem cnt_step12 : (countSolutions removalStep12).1 = 1 := by
  decide

theorem cnt_step13 : (countSolutions removalStep13).1 = 1 := by
  decide

theorem cnt_step14 : (countSolutions removalStep14).1 = 1 := by
  decide

theorem cnt_step15 : (countSolutions removalStep15).1 = 1 := by
  decide

theorem cnt_step16 : (countSolutions removalStep16).1 = 1 := by
  decide

theorem cnt_step17 : (countSolutions removalStep17).1 = 1 := by
  decide

theorem cnt_step18 : (countSolutions removalStep18).1 = 1 := by
  decide

theorem cnt_step19 : (countSolutions removalStep19).1 = 1 := by
  decide

theorem cnt_step20 : (countSolutions removalStep20).1 = 1 := by
  decide

theorem cnt_step21 : (countSolutions removalStep21).1 = 1 := by
  decide

theorem cnt_step22 : (countSolutions removalStep22).1 = 1 := by
  decide

theorem cnt_step23 : (countSolutions removalStep23).1 = 1 := by
  decide

theorem cnt_step24 : (countSolutions removalStep24).1 = 1 := by
  decide

theorem cnt_step25 : (countSolutions removalStep25).1 = 1 := by
  decide

theorem cnt_step26 : (countSolutions removalStep26).1 = 1 := by
  decide

theorem cnt_step27 : (countSolutions removalStep27).1 = 1 := by
  decide

theorem cnt_step28 : (countSolutions removalStep28).1 = 1 := by
  decide

theorem cnt_step29 : (countSolutions removalStep29).1 = 1 := by
  decide

theorem cnt_step30 : (countSolutions removalStep30).1 = 1 := by
  decide

theorem cnt_step31 : (countSolutions removalStep31).1 = 1 := by
  decide

theorem cnt_step32 : (countSolutions removalStep32).1 = 1 := by
  decide

theorem cnt_step33 : (countSolutions removalStep33).1 = 1 := by
  decide

theorem cnt_step34 : (countSolutions removalStep34).1 = 1 := by
  decide

theorem cnt_step35 : (countSolutions puzzleGrid).1 = 1 := by
  decide

theorem removal_chain :
    removeLoop rng0 27 0 35 solGrid 100 = some (puzzleGrid, 97) := by
  have h1 : removeLoop rng0 27 0 35 solGrid 100 =
      removeLoop rng0 29 1 35 removalStep1 99 :=
    removeLoop_step_success 0 0 1 (by decide) (by decide) (by decide)
      (by decide) (by decide) cnt_step1
  have h2 : removeLoop rng0 29 1 35 removalStep1 99 =
      removeLoop rng0 31 2 35 removalStep2 98 :=
    removeLoop_step_success 0 6 7 (by decide) (by decide) (by decide)
      (by decide) (by decide) cnt_step2
  have h3 : removeLoop rng0 31 2 35 removalStep2 98 =
      removeLoop rng0 33 3 35 removalStep3 97 :=
    removeLoop_step_success 1 0 4 (by decide) (by decide) (by decide)
      (by decide) (by decide) cnt_step3
  have h4 : removeLoop rng0 33 3 35 removalStep3 97 =
      removeLoop rng0 35 4 35 removalStep4 96 :=
    removeLoop_step_success 0 7 8 (by decide) (by decide) (by decide)
      (by decide) (by decide) cnt_step4
  have h5 : removeLoop rng0 35 4 35 removalStep4 96 =
      removeLoop rng0 37 5 35 removalStep5 95 :=
    removeLoop_step_success 1 6 1 (by decide) (by decide) (by decide)
      (by decide) (by decide) cnt_step5
  have h6 : removeLoop rng0 37 5 35 removalStep5 95 =
      removeLoop rng0 39 6 35 removalStep6 94 :=
    removeLoop_step_success 2 1 8 (by decide) (by decide) (by decide)
      (by decide) (by decide) cnt_step6
  have h7 : removeLoop rng0 39 6 35 removalStep6 94 =
      removeLoop rng0 41 7 35 removalStep7 93 :=
    removeLoop_step_success 0 8 9 (by decide) (by decide) (by decide)
      (by decide) (by decide) cnt_step7
  have h8 : removeLoop rng0 41 7 35 removalStep7 93 =
      removeLoop rng0 43 8 35 removalStep8 92 :=
    removeLoop_step_success 1 7 2 (by decide) (by decide) (by decide)
      (by decide) (by decide) cnt_step8
  have h9 : removeLoop rng0 43 8 35 removalStep8 92 =
      removeLoop rng0 45 9 35 removalStep9 91 :=
    removeLoop_step_success 2 7 5 (by decide) (by decide) (by decide)
      (by decide) (by decide) cnt_step9
  have h10 : removeLoop rng0 45 9 35 removalStep9 91 =
      removeLoop rng0 47 10 35 removalStep10 90 :=
    removeLoop_step_success 2 4 2 (by decide) (by decide) (by decide)
      (by decide) (by decide) cnt_step10
  have h11 : removeLoop rng0 47 10 35 removalStep10 90 =
      removeLoop rng0 49 11 35 removalStep11 89 :=
    removeLoop_step_success 3 1 1 (by decide) (by decide) (by decide)
      (by decide) (by decide) cnt_step11
  have h12 : removeLoop rng0 49 11 35 removalStep11 89 =
      removeLoop rng0 51 12 35 removalStep12 88 :=
    removeLoop_step_success 1 8 3 (by decide) (by decide) (by decide)
      (by decide) (by decide) cnt_step12
  have h13 : removeLoop rng0 51 12 35 removalStep12 88 =
      removeLoop rng0 53 13 35 removalStep13 87 :=
    removeLoop_step_success 0 4 5 (by decide) (by decide) (by decide)
      (by decide) (by decide) cnt_step13
  have h14 : removeLoop rng0 53 13 35 removalStep13 87 =
      removeLoop rng0 55 14 35 removalStep14 86 :=
    removeLoop_step_success 3 5 5 (by decide) (by decide) (by decide)
      (by decide) (by decide) cnt_step14
  have h15 : removeLoop rng0 55 14 35 removalStep14 86 =
      removeLoop rng0 57 15 35 removalStep15 85 :=
    removeLoop_step_success 1 3 7 (by decide) (by decide) (by decide)
      (by decide) (by decide) cnt_step15
  have h16 : removeLoop rng0 57 15 35 removalStep15 85 =
      removeLoop rng0 59 16 35 removalStep16 84 :=
    removeLoop_step_success 2 8 6 (by decide) (by decide) (by decide)
      (by decide) (by decide) cnt_step16
  have h17 : removeLoop rng0 59 16 35 removalStep16 84 =
      removeLoop rng0 61 17 35 removalStep17 83 :=
    removeLoop_step_success 0 5 6 (by decide) (by decide) (by decide)
      (by decide) (by decide) cnt_step17
  have h18 : removeLoop rng0 61 17 35 removalStep17 83 =
      removeLoop rng0 63 18 35 removalStep18 82 :=
    removeLoop_step_success 4 2 5 (by decide) (by decide) (by decide)
      (by decide) (by decide) cnt_step18
  have h19 : removeLoop rng0 63 18 35 removalStep18 82 =
      removeLoop rng0 65 19 35 removalStep19 81 :=
    removeLoop_step_success 4 8 4 (by decide) (by decide) (by decide)
      (by decide) (by decide) cnt_step19
  have h20 : removeLoop rng0 65 19 35 removalStep19 81 =
      removeLoop rng0 67 20 35 removalStep20 80 :=
    removeLoop_step_success 3 8 7 (by decide) (by decide) (by decide)
      (by decide) (by decide) cnt_step20
  have h21 : removeLoop rng0 67 20 35 removalStep20 80 =
      removeLoop rng0 69 21 35 removalStep21 79 :=
    removeLoop_step_success 5 1 9 (by decide) (by decide) (by decide)
      (by decide) (by decide) cnt_step21
  have h22 : removeLoop rng0 69 21 35 removalStep21 79 =
      removeLoop rng0 71 22 35 removalStep22 78 :=
    removeLoop_step_success 5 8 5 (by decide) (by decide) (by decide)
      (by decide) (by decide) cnt_step22
  have h23 : removeLoop rng0 71 22 35 removalStep22 78 =
      removeLoop rng0 73 23 35 removalStep23 77 :=
    removeLoop_step_success 4 3 8 (by decide) (by decide) (by decide)
      (by decide) (by decide) cnt_step23
  have h24 : removeLoop rng0 73 23 35 removalStep23 77 =
      removeLoop rng0 75 24 35 removalStep24 76 :=
    removeLoop_step_success 1 2 6 (by decide) (by decide) (by decide)
      (by decide) (by decide) cnt_step24
  have h25 : removeLoop rng0 75 24 35 removalStep24 76 =
      removeLoop rng0 77 25 35 removalStep25 75 :=
    removeLoop_step_success 2 5 3 (by decide) (by decide) (by decide)
      (by decide) (by decide) cnt_step25
  have h26 : removeLoop rng0 77 25 35 removalStep25 75 =
      removeLoop rng0 79 26 35 removalStep26 74 :=
    removeLoop_step_success 5 4 1 (by decide) (by decide) (by decide)
      (by decide) (by decide) cnt_step26
  have h27 : removeLoop rng0 79 26 35 removalStep26 74 =
      removeLoop rng0 81 27 35 removalStep27 73 :=
    removeLoop_step_success 6 3 6 (by decide) (by decide) (by decide)
      (by decide) (by decide) cnt_step27
  have h28 : removeLoop rng0 81 27 35 removalStep27 73 =
      removeLoop rng0 83 28 35 removalStep28 72 :=
    removeLoop_step_success 3 0 2 (by decide) (by decide) (by decide)
      (by decide) (by decide) cnt_step28
  have h29 : removeLoop rng0 83 28 35 removalStep28 72 =
      removeLoop rng0 85 29 35 removalStep29 71 :=
    removeLoop_step_success 4 7 1 (by decide) (by decide) (by decide)
      (by decide) (by decide) cnt_step29
  have h30 : removeLoop rng0 85 29 35 removalStep29 71 =
      removeLoop rng0 87 30 35 removalStep30 70 :=
    removeLoop_step_success 6 7 7 (by decide) (by decide) (by decide)
      (by decide) (by decide) cnt_step30
  have h31 : removeLoop rng0 87 30 35 removalStep30 70 =
      removeLoop rng0 89 31 35 removalStep31 69 :=
    removeLoop_step_success 6 8 8 (by decide) (by decide) (by decide)
      (by decide) (by decide) cnt_step31
  have h32 : removeLoop rng0 89 31 35 removalStep31 69 =
      removeLoop rng0 91 32 35 removalStep32 68 :=
    removeLoop_step_success 2 6 4 (by decide) (by decide) (by decide)
      (by decide) (by decide) cnt_step32
  have h33 : removeLoop rng0 91 32 35 removalStep32 68 =
      removeLoop rng0 93 33 35 removalStep33 67 :=
    removeLoop_step_success 7 3 9 (by decide) (by decide) (by decide)
      (by decide) (by decide) cnt_step33
  have h34 : removeLoop rng0 93 33 35 removalStep33 67 =
      removeLoop rng0 95 34 35 removalStep34 66 :=
    removeLoop_step_success 7 8 1 (by decide) (by decide) (by decide)
      (by decide) (by decide) cnt_step34
  have h35 : removeLoop rng0 95 34 35 removalStep34 66 =
      removeLoop rng0 97 35 35 puzzleGrid 65 :=
    removeLoop_step_success 1 1 5 (by decide) (by decide) (by decide)
      (by decide) (by decide) cnt_step35
  have hexit : removeLoop rng0 97 35 35 puzzleGrid 65 = some (puzzleGrid, 97) :=
    removeLoop_exit (by omega)
  exact h1.trans (h2.trans (h3.trans (h4.trans (h5.trans (h6.trans (h7.trans (h8.trans (h9.trans (h10.trans (h11.trans (h12.trans (h13.trans (h14.trans (h15.trans (h16.trans (h17.trans (h18.trans (h19.trans (h20.trans (h21.trans (h22.trans (h23.trans (h24.trans (h25.trans (h26.trans (h27.trans (h28.trans (h29.trans (h30.trans (h31.trans (h32.trans (h33.trans (h34.trans (h35.trans (hexit)))))))))))))))))))))))))))))))))))

theorem generateSudoku_of_pieces {rng : Nat → Nat} {d : Difficulty}
    {fuel : Nat} {gseed : Grid} {k1 : Nat} {p s : Grid} {k2 : Nat}
    (hseed : seedBoxes rng seedPositions emptyGrid 0 fuel = some (gseed, k1))
    (hsol : (solveSudoku gseed).2 = s)
    (hrem : removeLoop rng k1 0 (cellsToRemoveOf d) s fuel = some (p, k2)) :
    generateSudoku rng d fuel = some (p, s) := by
  unfold generateSudoku
  rw [hseed]
  show Option.map (fun pk : Grid × Nat => (pk.1, (solveSudoku gseed).2))
      (removeLoop rng k1 0 (cellsToRemoveOf d) ((solveSudoku gseed).2) fuel) =
    some (p, s)
  rw [hsol, hrem]
  rfl

theorem generateSudoku_rng0 :
    generateSudoku rng0 Difficulty.easy 100 = some (puzzleGrid, solGrid) :=
  generateSudoku_of_pieces seedBoxes_rng0 (by rw [solve_seedGrid]) removal_chain

/-! ### Further helper lemmas for the claims -/

theorem countSolutions_of_full {g : Grid} (h : full g) :
    countSolutions g = (1, g) := by
  have hfe := findEmpty_none_of_full h
  show countFuel 81 g 0 = (1, g)
  rw [show (81 : Nat) = 80 + 1 from rfl]
  simp [countFuel, hfe]

theorem solveSudoku_unfold_some {g : Grid} {r c : Nat}
    (hfe : findEmpty g = some (r, c)) :
    solveSudoku g = solveNums (fun g1 => solveFuel 80 g1) g r c (List.range' 1 9) := by
  show solveFuel 81 g = _
  rw [show (81 : Nat) = 80 + 1 from rfl]
  simp [solveFuel, hfe]

/-! ### The claims -/

/-- C1: for every difficulty, whenever generateSudoku returns a pair, the
solution grid is fully filled and each of its rows, columns, and 3x3 boxes is
a permutation of 1..9; moreover the run's solveSudoku call on the
diagonal-seeded board succeeded (were it to fail, the removal loop could never
reach its target of at least 35 removals from the 27 seeded cells, so no pair
would be returned). -/
theorem C1_generated_solution_complete_valid (rng : Nat → Nat) (d : Difficulty)
    (fuel : Nat) (p s : Grid) (h : generateSudoku rng d fuel = some (p, s)) :
    full s ∧
    (∀ r < 9, (rowVals s r).Perm (List.range' 1 9)) ∧
    (∀ c < 9, (colVals s c).Perm (List.range' 1 9)) ∧
    (∀ b < 9, (boxVals s b).Perm (List.range' 1 9)) ∧
    ∃ gseed k1, seedBoxes rng seedPositions emptyGrid 0 fuel = some (gseed, k1) ∧
      (solveSudoku gseed).1 = true := by
  obtain ⟨hsg, hsfull, hsd, hsn, hpg, hpsub, hpfc, hpcnt, gseed, k1, hseed, hsolve, hs⟩ :=
    generateSudoku_main h
  exact ⟨hsfull,
    fun r hr => rowVals_perm hsfull hsd hsn hr,
    fun c hc => colVals_perm hsfull hsd hsn hc,
    fun b hb => boxVals_perm hsfull hsd hsn hb,
    gseed, k1, hseed, hsolve⟩

/-- Witness for C1: a concrete random stream and fuel on which generateSudoku
returns a pair, instantiating the theorem there. -/
theorem C1_generated_solution_complete_valid_witness :
    generateSudoku rng0 Difficulty.easy 100 = some (puzzleGrid, solGrid) ∧
    (full solGrid ∧
      (∀ r < 9, (rowVals solGrid r).Perm (List.range' 1 9)) ∧
      (∀ c < 9, (colVals solGrid c).Perm (List.range' 1 9)) ∧
      (∀ b < 9, (boxVals solGrid b).Perm (List.range' 1 9)) ∧
      ∃ gseed k1, seedBoxes rng0 seedPositions emptyGrid 0 100 = some (gseed, k1) ∧
        (solveSudoku gseed).1 = true) :=
  ⟨generateSudoku_rng0,
    C1_generated_solution_complete_valid rng0 Difficulty.easy 100 puzzleGrid
      solGrid generateSudoku_rng0⟩

/-- C2: whenever generateSudoku returns a pair, running solveSudoku on the
puzzle succeeds and fills it to exactly the paired solution grid: the
puzzle's unique completion is the solution. -/
theorem C2_solver_reproduces_solution (rng : Nat → Nat) (d : Difficulty)
    (fuel : Nat) (p s : Grid) (h : generateSudoku rng d fuel = some (p, s)) :
    solveSudoku p = (true, s) := by
  obtain ⟨hsg, hsfull, hsd, hsn, hpg, hpsub, hpfc, hpcnt, -⟩ :=
    generateSudoku_main h
  have hpd : digitsOk p := digitsOk_of_subgrid hpsub hsd
  have hpn : noDupes p := noDupes_of_subgrid hpsub hsn
  have hcomps : completes s p := ⟨hsg, hsfull, hsd, hsn, hpsub⟩
  have huniq := ((countSolutions_spec hpg hpd hpn).2.1).1 hpcnt
  have htrue : (solveSudoku p).1 = true :=
    solveFuel_complete hpg (emptyCount_le p) hcomps
  obtain ⟨hfull2, hsub2, hrest2⟩ := solveFuel_fst_true htrue
  obtain ⟨hg2, hd2, hn2⟩ := hrest2 hpg
  have hcomp2 : completes (solveSudoku p).2 p :=
    ⟨hg2, hfull2, hd2 hpd, hn2 hpd hpn, hsub2⟩
  obtain ⟨u, hu, huq⟩ := huniq
  have hsnd : (solveSudoku p).2 = s := (huq _ hcomp2).trans (huq _ hcomps).symm
  exact Prod.ext_iff.2 ⟨htrue, hsnd⟩

/-- Witness for C2. -/
theorem C2_solver_reproduces_solution_witness :
    generateSudoku rng0 Difficulty.easy 100 = some (puzzleGrid, solGrid) ∧
    solveSudoku puzzleGrid = (true, solGrid) :=
  ⟨generateSudoku_rng0,
    C2_solver_reproduces_solution rng0 Difficulty.easy 100 puzzleGrid solGrid
      generateSudoku_rng0⟩

/-- C3: whenever generateSudoku returns a pair, every filled cell of the
puzzle equals the corresponding cell of the solution; and the removal loop
preserves this agreement as an invariant: any run of the loop started from a
board whose filled cells agree with sol ends in a board whose filled cells
agree with sol. -/
theorem C3_puzzle_agrees_with_solution (rng : Nat → Nat) (d : Difficulty)
    (fuel : Nat) (p s : Grid) (h : generateSudoku rng d fuel = some (p, s)) :
    (∀ r < 9, ∀ c < 9, ∀ v : Nat, getCell p r c = some v → getCell s r c = some v) ∧
    (∀ (rng' : Nat → Nat) (fuel' k a t : Nat) (q q' sol : Grid) (k' : Nat),
      removeLoop rng' k a t q fuel' = some (q', k') → isGrid q → subgrid q sol →
        subgrid q' sol) := by
  obtain ⟨-, -, -, -, -, hpsub, -, -, -⟩ := generateSudoku_main h
  exact ⟨hpsub, fun rng' fuel' k a t q q' sol k' hrem hq hqsub =>
    removeLoop_subgrid hrem hq hqsub⟩

/-- Witness for C3. -/
theorem C3_puzzle_agrees_with_solution_witness :
    generateSudoku rng0 Difficulty.easy 100 = some (puzzleGrid, solGrid) ∧
    ((∀ r < 9, ∀ c < 9, ∀ v : Nat,
        getCell puzzleGrid r c = some v → getCell solGrid r c = some v) ∧
      (∀ (rng' : Nat → Nat) (fuel' k a t : Nat) (q q' sol : Grid) (k' : Nat),
        removeLoop rng' k a t q fuel' = some (q', k') → isGrid q → subgrid q sol →
          subgrid q' sol)) :=
  ⟨generateSudoku_rng0,
    C3_puzzle_agrees_with_solution rng0 Difficulty.easy 100 puzzleGrid solGrid
      generateSudoku_rng0⟩

/-- C4: isValid returns false exactly when the value already appears in the
row, in the column, or in the 3x3 box with origin (row - row % 3,
col - col % 3), and true otherwise.  In this embedding isValid is a pure
function of the board value, so it cannot mutate the grid. -/
theorem C4_isValid_characterization (board : Grid) (row col num : Nat) :
    (isValid board row col num = false ↔
      (∃ x < 9, getCell board row x = some num) ∨
      (∃ x < 9, getCell board x col = some num) ∨
      (∃ i < 3, ∃ j < 3,
        getCell board (i + (row - row % 3)) (j + (col - col % 3)) = some num)) ∧
    (isValid board row col num = true ↔
      (∀ x < 9, getCell board row x ≠ some num) ∧
      (∀ x < 9, getCell board x col ≠ some num) ∧
      (∀ i < 3, ∀ j < 3,
        getCell board (i + (row - row % 3)) (j + (col - col % 3)) ≠ some num)) :=
  ⟨isValid_eq_false_iff board row col num, isValid_iff board row col num⟩

/-- Counterexample to C5 as stated: on the full board of 1s, solveSudoku
returns true and leaves the board unchanged, yet the board has no valid
completion, so the claimed equivalence with the existence of a valid
completion fails on pathological grids. -/
theorem C5_counterexample :
    (solveSudoku allOnes).1 = true ∧ (solveSudoku allOnes).2 = allOnes ∧
    ¬ ∃ s, completes s allOnes := by
  refine ⟨by decide, by decide, ?_⟩
  rintro ⟨s, hsg, hsfull, hsdig, hsnd, hssub⟩
  have h1 : getCell s 0 0 = some 1 :=
    hssub 0 (by omega) 0 (by omega) 1 (by decide)
  have h2 : getCell s 0 1 = some 1 :=
    hssub 0 (by omega) 1 (by omega) 1 (by decide)
  exact hsnd 0 (by omega) 0 (by omega) 0 (by omega) 1 (by omega) (by decide)
    (Or.inl rfl) 1 h1 h2

/-- C5 amended: for grids of the data model (well-shaped, digits 1..9, no
duplicates in a row, column, or box), solveSudoku returns true exactly when a
valid completion exists, and then its final board is a valid completion of
the input; solving an already full grid returns it unchanged with success;
and at the first empty cell in row-major order the final value is the least
candidate in 1..9 that passes isValid and leads to a solved grid, every
smaller passing candidate having failed. -/
theorem C5_solver_contract_amended (g : Grid) (hg : isGrid g) (hd : digitsOk g)
    (hn : noDupes g) :
    ((solveSudoku g).1 = true ↔ ∃ s, completes s g) ∧
    ((solveSudoku g).1 = true → completes (solveSudoku g).2 g) ∧
    (full g → solveSudoku g = (true, g)) ∧
    (∀ r c, findEmpty g = some (r, c) → (solveSudoku g).1 = true →
      getCell g r c = none ∧
      (∀ r' < 9, ∀ c' < 9, (r' < r ∨ (r' = r ∧ c' < c)) → getCell g r' c' ≠ none) ∧
      ∃ v, 1 ≤ v ∧ v ≤ 9 ∧ isValid g r c v = true ∧
        getCell (solveSudoku g).2 r c = some v ∧
        solveSudoku (setCell g r c (some v)) = (true, (solveSudoku g).2) ∧
        ∀ w, 1 ≤ w → w < v → isValid g r c w = true →
          (solveSudoku (setCell g r c (some w))).1 = false) := by
  refine ⟨⟨?_, ?_⟩, ?_, ?_, ?_⟩
  · intro h
    obtain ⟨hfull2, hsub2, hrest2⟩ := solveFuel_fst_true h
    obtain ⟨hg2, hd2, hn2⟩ := hrest2 hg
    exact ⟨(solveSudoku g).2, hg2, hfull2, hd2 hd, hn2 hd hn, hsub2⟩
  · rintro ⟨s, hs⟩
    exact solveFuel_complete hg (emptyCount_le g) hs
  · intro h
    obtain ⟨hfull2, hsub2, hrest2⟩ := solveFuel_fst_true h
    obtain ⟨hg2, hd2, hn2⟩ := hrest2 hg
    exact ⟨hg2, hfull2, hd2 hd, hn2 hd hn, hsub2⟩
  · intro h
    exact solveFuel_of_full 81 h
  · intro r c hfe htrue
    obtain ⟨hr, hc, hcell, hfirst⟩ := findEmpty_eq_some hfe
    refine ⟨hcell, hfirst, ?_⟩
    have huf := solveSudoku_unfold_some hfe
    rw [huf] at htrue
    obtain ⟨ns1, v, ns2, hsplit, hval, hslv, hfail⟩ :=
      solveNums_fst_true (fun g' h' => solveFuel_fst_false h') hcell htrue
    have hvmem : v ∈ List.range' 1 9 := by
      rw [hsplit]
      exact List.mem_append_right _ (List.mem_cons_self _ _)
    have hv19 := mem_range19.1 hvmem
    have hslvtrue : (solveFuel 80 (setCell g r c (some v))).1 = true := by
      rw [hslv]
    obtain ⟨-, hsubv, -⟩ := solveFuel_fst_true hslvtrue
    have hvcell : getCell (solveFuel 80 (setCell g r c (some v))).2 r c = some v :=
      hsubv r hr c hc v (getCell_setCell_self hg hr hc _)
    have hecset : ∀ w : Nat, emptyCount (setCell g r c (some w)) ≤ 80 := by
      intro w
      have h1 := emptyCount_setCell_some hg hr hc hcell w
      have h2 := emptyCount_le g
      omega
    have hcongr : ∀ w : Nat, solveSudoku (setCell g r c (some w)) =
        solveFuel 80 (setCell g r c (some w)) := by
      intro w
      exact solveFuel_congr (isGrid_setCell hg r c _) (emptyCount_le _) (hecset w)
    refine ⟨v, hv19.1, hv19.2, hval, ?_, ?_, ?_⟩
    · rw [huf]
      rw [hslv] at hvcell
      simpa using hvcell
    · rw [huf, hcongr v, hslv]
    · intro w h1w hwv hwval
      have hwmem : w ∈ List.range' 1 9 := mem_range19.2 ⟨h1w, by omega⟩
      have hpair : (List.range' 1 9).Pairwise (· < ·) := by decide
      rw [hsplit] at hpair hwmem
      have hwns1 : w ∈ ns1 := by
        rcases List.mem_append.1 hwmem with h | h
        · exact h
        · exfalso
          have hp2 := (List.pairwise_append.1 hpair).2.1
          rcases List.mem_cons.1 h with rfl | h2
          · omega
          · have := (List.pairwise_cons.1 hp2).1 w h2
            omega
      rw [hcongr w]
      exact hfail w hwns1 hwval

/-- Witness for C5 amended: the empty grid satisfies the hypotheses. -/
theorem C5_solver_contract_amended_witness :
    isGrid emptyGrid ∧ digitsOk emptyGrid ∧ noDupes emptyGrid ∧
    (((solveSudoku emptyGrid).1 = true ↔ ∃ s, completes s emptyGrid) ∧
      ((solveSudoku emptyGrid).1 = true →
        completes (solveSudoku emptyGrid).2 emptyGrid) ∧
      (full emptyGrid → solveSudoku emptyGrid = (true, emptyGrid)) ∧
      (∀ r c, findEmpty emptyGrid = some (r, c) →
        (solveSudoku emptyGrid).1 = true →
        getCell emptyGrid r c = none ∧
        (∀ r' < 9, ∀ c' < 9, (r' < r ∨ (r' = r ∧ c' < c)) →
          getCell emptyGrid r' c' ≠ none) ∧
        ∃ v, 1 ≤ v ∧ v ≤ 9 ∧ isValid emptyGrid r c v = true ∧
          getCell (solveSudoku emptyGrid).2 r c = some v ∧
          solveSudoku (setCell emptyGrid r c (some v)) =
            (true, (solveSudoku emptyGrid).2) ∧
          ∀ w, 1 ≤ w → w < v → isValid emptyGrid r c w = true →
            (solveSudoku (setCell emptyGrid r c (some w))).1 = false)) :=
  ⟨by decide, by decide, by decide,
    C5_solver_contract_amended emptyGrid (by decide) (by decide) (by decide)⟩

/-- C6: for data-model grids without row, column, or box duplicates,
countSolutions returns 0 exactly when no valid completion exists, 1 exactly
when exactly one exists (in particular it returns 1 on any full grid), 2
exactly when at least two exist, and never more than 2: once the count
reaches 2 the search short-circuits, so a count beyond 2 is never
computed. -/
theorem C6_countSolutions_contract (g : Grid) (hg : isGrid g) (hd : digitsOk g)
    (hn : noDupes g) :
    ((countSolutions g).1 = 0 ↔ ¬ ∃ s, completes s g) ∧
    ((countSolutions g).1 = 1 ↔ ∃! s, completes s g) ∧
    ((countSolutions g).1 = 2 ↔
      ∃ s1 s2, s1 ≠ s2 ∧ completes s1 g ∧ completes s2 g) ∧
    (countSolutions g).1 ≤ 2 ∧
    (full g → (countSolutions g).1 = 1) := by
  obtain ⟨h0, h1, h2, hle⟩ := countSolutions_spec hg hd hn
  exact ⟨h0, h1, h2, hle, fun hfull => by rw [countSolutions_of_full hfull]⟩

/-- Witness for C6: a consistent concrete board satisfying the hypotheses. -/
theorem C6_countSolutions_contract_witness :
    isGrid midGrid ∧ digitsOk midGrid ∧ noDupes midGrid ∧
    (((countSolutions midGrid).1 = 0 ↔ ¬ ∃ s, completes s midGrid) ∧
      ((countSolutions midGrid).1 = 1 ↔ ∃! s, completes s midGrid) ∧
      ((countSolutions midGrid).1 = 2 ↔
        ∃ s1 s2, s1 ≠ s2 ∧ completes s1 midGrid ∧ completes s2 midGrid) ∧
      (countSolutions midGrid).1 ≤ 2 ∧
      (full midGrid → (countSolutions midGrid).1 = 1)) :=
  ⟨by decide, by decide, by decide,
    C6_countSolutions_contract midGrid (by decide) (by decide) (by decide)⟩

/-- C7: whenever solveSudoku reports failure, the board it hands back is the
board it was given: every tentative placement of the failed search has been
reverted to empty. -/
theorem C7_failed_solve_restores_grid (g : Grid)
    (h : (solveSudoku g).1 = false) : (solveSudoku g).2 = g :=
  solveFuel_fst_false h

/-- Witness for C7: a concrete unsolvable board on which solveSudoku fails. -/
theorem C7_failed_solve_restores_grid_witness :
    (solveSudoku stuckGrid).1 = false ∧ (solveSudoku stuckGrid).2 = stuckGrid :=
  ⟨by decide, C7_failed_solve_restores_grid stuckGrid (by decide)⟩

/-- C8: countSolutions hands back the board it was given: under the
embedding's value semantics the caller observes the same grid after the call,
and the generator's uniqueness check (run on a deep copy, which in value
semantics is the grid itself) leaves the live puzzle candidate untouched. -/
theorem C8_countSolutions_preserves_grid (g : Grid) :
    (countSolutions g).2 = g :=
  countSolutions_snd g

/-- C9: whenever generateSudoku returns a pair, the puzzle has exactly
81 minus the difficulty's removal count filled cells, the removal counts
being 35, 45, 55, 60 for easy, medium, hard, expert; and a pick landing on an
already-empty cell leaves the attempt counter unchanged, only consuming the
iteration. -/
theorem C9_difficulty_filled_counts (rng : Nat → Nat) (d : Difficulty)
    (fuel : Nat) (p s : Grid) (h : generateSudoku rng d fuel = some (p, s)) :
    filledCount p = 81 - cellsToRemoveOf d ∧
    cellsToRemoveOf Difficulty.easy = 35 ∧
    cellsToRemoveOf Difficulty.medium = 45 ∧
    cellsToRemoveOf Difficulty.hard = 55 ∧
    cellsToRemoveOf Difficulty.expert = 60 ∧
    (∀ (rng' : Nat → Nat) (k a t : Nat) (q : Grid) (fuel' : Nat),
      ¬ t ≤ a → getCell q (rng' k % 9) (rng' (k + 1) % 9) = none →
        removeLoop rng' k a t q (fuel' + 1) = removeLoop rng' (k + 2) a t q fuel') := by
  obtain ⟨-, -, -, -, -, -, hpfc, -, -⟩ := generateSudoku_main h
  refine ⟨by omega, rfl, rfl, rfl, rfl, ?_⟩
  intro rng' k a t q fuel' hta hcell
  exact removeLoop_succ_none hta hcell

/-- Witness for C9. -/
theorem C9_difficulty_filled_counts_witness :
    generateSudoku rng0 Difficulty.easy 100 = some (puzzleGrid, solGrid) ∧
    (filledCount puzzleGrid = 81 - cellsToRemoveOf Difficulty.easy ∧
      cellsToRemoveOf Difficulty.easy = 35 ∧
      cellsToRemoveOf Difficulty.medium = 45 ∧
      cellsToRemoveOf Difficulty.hard = 55 ∧
      cellsToRemoveOf Difficulty.expert = 60 ∧
      (∀ (rng' : Nat → Nat) (k a t : Nat) (q : Grid) (fuel' : Nat),
        ¬ t ≤ a → getCell q (rng' k % 9) (rng' (k + 1) % 9) = none →
          removeLoop rng' k a t q (fuel' + 1) =
            removeLoop rng' (k + 2) a t q fuel')) :=
  ⟨generateSudoku_rng0,
    C9_difficulty_filled_counts rng0 Difficulty.easy 100 puzzleGrid solGrid
      generateSudoku_rng0⟩

/-- C10: neither solveSudoku nor countSolutions looks at already-filled
cells: on any board with no empty cell, even one violating the row, column,
or box constraints, solveSudoku reports success leaving the board unchanged
and countSolutions returns 1 (also leaving the board unchanged). -/
theorem C10_full_grid_no_validation (g : Grid) (h : full g) :
    solveSudoku g = (true, g) ∧ countSolutions g = (1, g) :=
  ⟨solveFuel_of_full 81 h, countSolutions_of_full h⟩

/-- Witness for C10: the full board of 2s violates every constraint. -/
theorem C10_full_grid_no_validation_witness :
    full allTwos ∧
    (solveSudoku allTwos = (true, allTwos) ∧ countSolutions allTwos = (1, allTwos)) :=
  ⟨by decide, C10_full_grid_no_validation allTwos (by decide)⟩

end NeonSudoku
